import Mathlib

/-!
Verification of the conversational accommodation-search backend
(`backend/validators.py`, `backend/extractors.py`, `backend/utils.py`,
`backend/scrapers.py`).

The Python code is shallowly embedded: strings are `String`/`List Char`,
Python `int` is `Int` (regex-captured digit runs are `Nat`), optional
fields are `Option`, and Python truthiness is made explicit.  The regex
patterns of the source are transcribed into a small executable
backtracking matcher (`RE`) with Python `re` semantics for the features
the source uses (leftmost search, greedy / lazy repetition, ordered
alternation, capture groups, `re.IGNORECASE`).  External effects
(the HTTP fetch, the rendered-browser fetch, the language-model
completion, the wall clock) enter as explicit parameters.
-/

namespace Confind

/-! ## Characters and Python-style string primitives -/

/-- Python `str.lower` restricted to the alphabets the source uses:
ASCII and Cyrillic (the known-locations gazetteer has Cyrillic entries). -/
def lowChar (c : Char) : Char :=
  if 'A' ≤ c ∧ c ≤ 'Z' then Char.ofNat (c.toNat + 32)
  else if 0x410 ≤ c.toNat ∧ c.toNat ≤ 0x42F then Char.ofNat (c.toNat + 32)
  else if c.toNat = 0x401 then Char.ofNat 0x451
  else c

/-- Python `str.upper` on the same alphabets (used by `str.title`). -/
def upChar (c : Char) : Char :=
  if 'a' ≤ c ∧ c ≤ 'z' then Char.ofNat (c.toNat - 32)
  else if 0x430 ≤ c.toNat ∧ c.toNat ≤ 0x44F then Char.ofNat (c.toNat - 32)
  else if c.toNat = 0x451 then Char.ofNat 0x401
  else c

def isDigitCh (c : Char) : Bool := '0' ≤ c ∧ c ≤ '9'

/-- Python `\s` / `str.strip` whitespace (ASCII range). -/
def isSpaceCh (c : Char) : Bool :=
  c = ' ' ∨ c = '\t' ∨ c = '\n' ∨ c = '\r' ∨ c = '\x0b' ∨ c = '\x0c'

def isAsciiAlpha (c : Char) : Bool :=
  ('a' ≤ c ∧ c ≤ 'z') ∨ ('A' ≤ c ∧ c ≤ 'Z')

/-- Python `\w` word character over the alphabets in play. -/
def isWordCh (c : Char) : Bool :=
  isAsciiAlpha c ∨ isDigitCh c ∨ c = '_' ∨ (0x400 ≤ c.toNat ∧ c.toNat ≤ 0x4FF)

def lowerL (s : List Char) : List Char := s.map lowChar

/-- Term `needle` is a prefix of `hay`. -/
def isPrefL : List Char → List Char → Bool
  | [], _ => true
  | _ :: _, [] => false
  | a :: as, b :: bs => a == b && isPrefL as bs

/-- Python substring containment `needle in hay`. -/
def hasSubL (needle : List Char) : List Char → Bool
  | [] => needle.isEmpty
  | c :: rest => isPrefL needle (c :: rest) || hasSubL needle rest

/-- Python `needle in hay` on `String`s. -/
def pyIn (needle hay : String) : Bool := hasSubL needle.toList hay.toList

def pyLower (s : String) : String := ⟨lowerL s.toList⟩

/-- Python `str.strip()`. -/
def pyStrip (s : String) : String :=
  ⟨((s.toList.dropWhile isSpaceCh).reverse.dropWhile isSpaceCh).reverse⟩

/-- Python `str.split()` (split on whitespace runs, no empty fields);
`cur` holds the current word reversed. -/
def pyWordsGo : List Char → List Char → List (List Char)
  | cur, [] => if cur.isEmpty then [] else [cur.reverse]
  | cur, c :: rest =>
    if isSpaceCh c then
      if cur.isEmpty then pyWordsGo [] rest
      else cur.reverse :: pyWordsGo [] rest
    else pyWordsGo (c :: cur) rest

def pyWords (s : List Char) : List (List Char) := pyWordsGo [] s

/-- Python `str.title()` on the alphabets in play: the first letter of every
letter run is uppercased, the rest lowercased. -/
def pyTitleGo : Bool → List Char → List Char
  | _, [] => []
  | prevAlpha, c :: rest =>
    if isAsciiAlpha c ∨ (0x400 ≤ c.toNat ∧ c.toNat ≤ 0x4FF) then
      (if prevAlpha then lowChar c else upChar c) :: pyTitleGo true rest
    else
      c :: pyTitleGo false rest

def pyTitle (s : String) : String := ⟨pyTitleGo false s.toList⟩

/-- Python truthiness of an optional int (`None` and `0` are falsy). -/
def tInt : Option Int → Bool
  | none => false
  | some v => v ≠ 0

/-- Python truthiness of an optional string (`None` and `""` are falsy). -/
def tStr : Option String → Bool
  | none => false
  | some s => s ≠ ""

/-- Python truthiness of an optional list (`None` and `[]` are falsy). -/
def tList : Option (List String) → Bool
  | none => false
  | some l => l ≠ []

/-- Python `int(s)` on a captured digit run. -/
def digitsToNat (s : List Char) : Nat :=
  s.foldl (fun acc c => acc * 10 + (c.toNat - '0'.toNat)) 0

def allDigits (s : List Char) : Bool := s ≠ [] && s.all isDigitCh

/-! ## A small backtracking regex engine

Only the constructs the source's patterns use are provided.  Literal
characters match case-insensitively (every pattern in the source that the
claims depend on is compiled with `re.IGNORECASE`); case-sensitive
classes (`[A-Z]`, `[a-z]`) exist for the one pattern list compiled
without flags.  `starL` is lazy (`*?`), `starG`/`optG` greedy, and
alternation is ordered, matching Python's leftmost backtracking search. -/

inductive CC
  | digit | space | anyNN | alpha | upperA | lowerA
  | ch (c : Char)
  | oneOf (l : List Char)
deriving Repr, DecidableEq

def ccMatch : CC → Char → Bool
  | .digit, c => isDigitCh c
  | .space, c => isSpaceCh c
  | .anyNN, c => c ≠ '\n'
  | .alpha, c => isAsciiAlpha c
  | .upperA, c => 'A' ≤ c ∧ c ≤ 'Z'
  | .lowerA, c => 'a' ≤ c ∧ c ≤ 'z'
  | .ch a, c => a == lowChar c
  | .oneOf l, c => l.contains c

inductive RE
  | eps
  | cls (k : CC)
  | seq (a b : RE)
  | alt (a b : RE)
  | starG (a : RE)
  | starL (a : RE)
  | optG (a : RE)
  | grp (i : Nat) (a : RE)
  | eos
deriving Repr, DecidableEq

def reSize : RE → Nat
  | .eps => 1
  | .cls _ => 1
  | .seq a b => reSize a + reSize b + 1
  | .alt a b => reSize a + reSize b + 1
  | .starG a => reSize a + 1
  | .starL a => reSize a + 1
  | .optG a => reSize a + 1
  | .grp _ a => reSize a + 1
  | .eos => 1

/-- Captured groups: group index paired with the captured characters. -/
abbrev Caps := List (Nat × List Char)

/-- Continuation-passing backtracking matcher.  The fuel bounds the depth
of the dynamic call chain; every recursive call strictly decreases it. -/
def reM : Nat → RE → List Char → (List Char → Option Caps) → Option Caps
  | 0, _, _, _ => none
  | _ + 1, .eps, s, k => k s
  | _ + 1, .eos, s, k => if s.isEmpty then k s else none
  | _ + 1, .cls cc, s, k =>
    match s with
    | [] => none
    | c :: rest => if ccMatch cc c then k rest else none
  | fuel + 1, .seq a b, s, k => reM fuel a s (fun s' => reM fuel b s' k)
  | fuel + 1, .alt a b, s, k =>
    (reM fuel a s k).orElse (fun _ => reM fuel b s k)
  | fuel + 1, .starG a, s, k =>
    (reM fuel a s (fun s' =>
      if s'.length < s.length then reM fuel (.starG a) s' k else none)).orElse
      (fun _ => k s)
  | fuel + 1, .starL a, s, k =>
    (k s).orElse (fun _ =>
      reM fuel a s (fun s' =>
        if s'.length < s.length then reM fuel (.starL a) s' k else none))
  | fuel + 1, .optG a, s, k => (reM fuel a s k).orElse (fun _ => k s)
  | fuel + 1, .grp i a, s, k =>
    reM fuel a s (fun s' =>
      (k s').map (fun caps => (i, s.take (s.length - s'.length)) :: caps))

def capGet (caps : Caps) (i : Nat) : Option (List Char) :=
  (caps.find? (fun p => p.1 = i)).map (·.2)

/-- Attempt a match anchored at the start of `s`; group 0 records the
whole matched span. -/
def reTry (re : RE) (s : List Char) : Option Caps :=
  reM ((s.length + 2) * (reSize re + 4) + 16) (.grp 0 re) s (fun _ => some [])

/-- Python `re.search`: leftmost match anywhere in the input. -/
def reSearchL (re : RE) : List Char → Option Caps
  | [] => reTry re []
  | c :: rest =>
    match reTry re (c :: rest) with
    | some caps => some caps
    | none => reSearchL re rest

def reSearch (re : RE) (s : String) : Option Caps := reSearchL re s.toList

/-- Python `re.finditer`: successive non-overlapping leftmost matches. -/
def reFindGo (re : RE) : Nat → List Char → List Caps
  | 0, _ => []
  | _ + 1, [] =>
    match reTry re [] with
    | some caps => [caps]
    | none => []
  | n + 1, s@(_ :: rest) =>
    match reTry re s with
    | some caps =>
      let L := ((capGet caps 0).getD []).length
      if L = 0 then caps :: reFindGo re n rest
      else caps :: reFindGo re n (s.drop L)
    | none => reFindGo re n rest

def reFindIter (re : RE) (s : String) : List Caps :=
  reFindGo re (s.toList.length + 1) s.toList

/-! Pattern-building helpers (the literals stored lowercase, matching
case-insensitively). -/

def reC (c : Char) : RE := .cls (.ch (lowChar c))

def reStr (s : String) : RE :=
  s.toList.foldr (fun c acc => RE.seq (reC c) acc) RE.eps

def reCat (l : List RE) : RE := l.foldr RE.seq RE.eps

def reAlts : List RE → RE
  | [] => RE.eps
  | [r] => r
  | r :: rest => RE.alt r (reAlts rest)

/-- Regex `\d+` (greedy). -/
def reDigits : RE := RE.seq (.cls .digit) (.starG (.cls .digit))

/-- Regex `\d{1,2}` (greedy). -/
def reD12 : RE := RE.seq (.cls .digit) (.optG (.cls .digit))

/-- Regex `\s*`. -/
def reSp0 : RE := .starG (.cls .space)

/-- Regex `\s+`. -/
def reSp1 : RE := RE.seq (.cls .space) reSp0

/-- Regex `.*?` (lazy). -/
def reLazyAny : RE := .starL (.cls .anyNN)

/-- Regex `.*` (greedy). -/
def reAnyG : RE := .starG (.cls .anyNN)

/-- Regex `\$?`. -/
def reDollarOpt : RE := .optG (.cls (.ch '$'))

/-! ## Data model (`backend/models.py`) -/

/-- Term `SearchParams` of `models.py`: every field optional, `None` by default.
Numeric fields are Python ints (`Int`). -/
@[ext]
structure SearchParams where
  location : Option String := none
  checkin : Option String := none
  checkout : Option String := none
  guests : Option Int := none
  min_price : Option Int := none
  max_price : Option Int := none
  property_type : Option String := none
  amenities : Option (List String) := none
deriving Repr, DecidableEq

/-! ## Validator (`backend/validators.py`, `validate_and_fix_params`) -/

/-- Regex `(\d+)\s+(?:people|guests?|person|adults?)` -/
def vgp1 : RE := reCat [.grp 1 reDigits, reSp1,
  reAlts [reStr "people", RE.seq (reStr "guest") (.optG (reC 's')),
    reStr "person", RE.seq (reStr "adult") (.optG (reC 's'))]]

/-- Regex `(?:for|with)\s+(\d+)(?:\s+(?:people|guests|adults))` -/
def vgp2 : RE := reCat [reAlts [reStr "for", reStr "with"], reSp1, .grp 1 reDigits,
  reSp1, reAlts [reStr "people", reStr "guests", reStr "adults"]]

/-- Regex `(\d+)\s+of us` -/
def vgp3 : RE := reCat [.grp 1 reDigits, reSp1, reStr "of us"]

/-- The inner loop of the guest re-derivation: first match whose captured
number lies in `[1,16]`. -/
def guestFromMatches : List Caps → Option Nat
  | [] => none
  | c :: rest =>
    let g := digitsToNat ((capGet c 1).getD [])
    if 1 ≤ g ∧ g ≤ 16 then some g else guestFromMatches rest

/-- The guest-pattern cascade of `validate_and_fix_params` (lines 12-27). -/
def rederiveGuests (text : String) : Option Nat :=
  match guestFromMatches (reFindIter vgp1 text) with
  | some g => some g
  | none =>
    match guestFromMatches (reFindIter vgp2 text) with
    | some g => some g
    | none => guestFromMatches (reFindIter vgp3 text)

/-- Guest-count repair (`validate_and_fix_params` lines 8-30):
an extracted count `> 16` is re-derived from the source text,
defaulting to 2. -/
def fixGuests (p : SearchParams) (text : String) : SearchParams :=
  match p.guests with
  | some g =>
    if g > 16 then
      { p with guests := some (((rederiveGuests text).map Int.ofNat).getD 2) }
    else p
  | none => p

/-- Regex `under\s+\$?(\d+)` -/
def pf1 : RE := reCat [reStr "under", reSp1, reDollarOpt, .grp 1 reDigits]

/-- Regex `below\s+\$?(\d+)` -/
def pf2 : RE := reCat [reStr "below", reSp1, reDollarOpt, .grp 1 reDigits]

/-- Regex `(\d+)\$?\s*(?:per\s*night\s*)?maximum.*?(\d+)\$?\s*area` -/
def pf3 : RE := reCat [.grp 1 reDigits, reDollarOpt, reSp0,
  .optG (reCat [reStr "per", reSp0, reStr "night", reSp0]),
  reStr "maximum", reLazyAny, .grp 2 reDigits, reDollarOpt, reSp0, reStr "area"]

/-- Regex `around\s+\$?(\d+)` -/
def pf4 : RE := reCat [reStr "around", reSp1, reDollarOpt, .grp 1 reDigits]

/-- Regex `(\d+)\s*(?:to|through|-)\s*(\d+)\s*(?:dollars?|\$|per\s*night)` -/
def pf5 : RE := reCat [.grp 1 reDigits, reSp0,
  reAlts [reStr "to", reStr "through", reStr "-"], reSp0, .grp 2 reDigits, reSp0,
  reAlts [RE.seq (reStr "dollar") (.optG (reC 's')), reStr "$",
    reCat [reStr "per", reSp0, reStr "night"]]]

/-- Regex `budget.*?\$?(\d+)` -/
def pf6 : RE := reCat [reStr "budget", reLazyAny, reDollarOpt, .grp 1 reDigits]

/-- Regex `max.*?\$?(\d+)` -/
def pf7 : RE := reCat [reStr "max", reLazyAny, reDollarOpt, .grp 1 reDigits]

/-- Regex `up\s+to\s+\$?(\d+)` -/
def pf8 : RE := reCat [reStr "up", reSp1, reStr "to", reSp1, reDollarOpt, .grp 1 reDigits]

/-- The ordered `price_fix_patterns` list; the flag records whether the
pattern has two capture groups (`match.lastindex == 2`). -/
def pfPatterns : List (RE × Bool) :=
  [(pf1, false), (pf2, false), (pf3, true), (pf4, false),
   (pf5, true), (pf6, false), (pf7, false), (pf8, false)]

/-- Outcome of the price-repair loop: either an explicit two-number range
or a single number with the `is_max_constraint` flag. -/
inductive FixKind
  | two (n1 n2 : Nat)
  | one (p : Nat) (isMax : Bool)
deriving Repr, DecidableEq

/-- Python `any(word in match.group(0).lower() for word in ["under","below","max","up to"])` -/
def pfIsMax (caps : Caps) : Bool :=
  let g0 := lowerL ((capGet caps 0).getD [])
  hasSubL "under".toList g0 || hasSubL "below".toList g0 ||
    hasSubL "max".toList g0 || hasSubL "up to".toList g0

/-- The price-repair pattern loop (`validate_and_fix_params` lines 54-79):
patterns are tried in order; the loop breaks only when a match passes the
`20 ≤ n ≤ 1000` sanity check, otherwise later patterns are still tried. -/
def pfpStep (text : String) : List (RE × Bool) → Option FixKind
  | [] => none
  | (re, isTwo) :: rest =>
    match reSearch re text with
    | none => pfpStep text rest
    | some caps =>
      if isTwo then
        let n1 := digitsToNat ((capGet caps 1).getD [])
        let n2 := digitsToNat ((capGet caps 2).getD [])
        if 20 ≤ n1 ∧ n1 ≤ 1000 ∧ 20 ≤ n2 ∧ n2 ≤ 1000 then some (.two n1 n2)
        else pfpStep text rest
      else
        let p := digitsToNat ((capGet caps 1).getD [])
        if 20 ≤ p ∧ p ≤ 1000 then some (.one p (pfIsMax caps))
        else pfpStep text rest

def priceFixCascade (text : String) : Option FixKind := pfpStep text pfPatterns

/-- Python `should_fix_price` (lines 47-51), with Python truthiness explicit. -/
def shouldFixPrice (p : SearchParams) : Bool :=
  (match p.max_price with
   | some m => m ≠ 0 && m > 500
   | none => false)
  || (match p.max_price, p.min_price with
      | some m, some mn => m ≠ 0 && (mn ≠ 0 && mn > m)
      | _, _ => false)
  || (!tInt p.max_price && !tInt p.min_price)

/-- Application of a successful price repair (lines 61-79). -/
def applyFix (k : FixKind) (p : SearchParams) : SearchParams :=
  match k with
  | .two n1 n2 =>
    { p with min_price := some (min (n1 : Int) (n2 : Int) - 50),
             max_price := some (max (n1 : Int) (n2 : Int)) }
  | .one pr true =>
    { p with max_price := some (pr : Int),
             min_price := some (max 20 ((pr : Int) - 100)) }
  | .one pr false =>
    { p with max_price := some ((pr : Int) + 50),
             min_price := some (max 20 ((pr : Int) - 50)) }

/-- The trailing defaults of `validate_and_fix_params` (lines 81-91):
guest clamp to `[1,16]`, `max_price` snapped to 500 above 2000, negative
`min_price` snapped to 20 (truthiness: a stored 0 is left alone). -/
def capsDefaults (p : SearchParams) : SearchParams :=
  let g1 : Int := match p.guests with | none => 2 | some g => if g < 1 then 2 else g
  let g2 : Int := if g1 > 16 then 16 else g1
  let mx : Option Int :=
    match p.max_price with
    | some m => if m ≠ 0 ∧ m > 2000 then some 500 else some m
    | none => none
  let mn : Option Int :=
    match p.min_price with
    | some m => if m ≠ 0 ∧ m < 0 then some 20 else some m
    | none => none
  { p with guests := some g2, max_price := mx, min_price := mn }

/-- Python `validate_and_fix_params(params, conversation_text)` of
`backend/validators.py`. -/
def validate_and_fix_params (p : SearchParams) (conversation_text : String) :
    SearchParams :=
  let p1 := fixGuests p conversation_text
  let p2 :=
    if conversation_text ≠ "" then
      if shouldFixPrice p1 then
        match priceFixCascade conversation_text with
        | some k => applyFix k p1
        | none => p1
      else p1
    else p1
  capsDefaults p2

/-! ## Conversation state evaluator
(`backend/validators.py`, `should_trigger_search`) -/

/-- An apostrophe, kept out of string literals. -/
def apo : String := ⟨[Char.ofNat 39]⟩

def affirmative_responses : List String :=
  ["yes", "yep", "yeah", "ok", "okay", "sure", "go", "go ahead",
   "do it", "correct", "that" ++ apo ++ "s right", "start searching", "search",
   "find", "let" ++ apo ++ "s go", "proceed", "continue", "good", "right", "fine",
   "perfect", "exactly", "sounds good", "looks good", "confirmed",
   "do it now", "search now", "start", "begin", "now", "please"]

def explicit_search_triggers : List String :=
  ["search", "find", "look for", "show me", "what" ++ apo ++ "s available",
   "available", "can you search", "let" ++ apo ++ "s see", "search for",
   "find me", "show options", "what do you have", "let me see", "get me",
   "just get me", "now search", "do search", "start search", "run search",
   "please search", "search please"]

def price_indicators : List String :=
  ["$", "budget", "max", "maximum", "under", "below", "up to", "around",
   "cost", "price", "expensive", "cheap", "affordable", "dollar"]

def date_indicators : List String :=
  ["june", "july", "august", "may", "april", "march", "january", "february",
   "september", "october", "november", "december", "/", "-", "check in",
   "check out", "checkin", "checkout", "dates", "when", "stay"]

def guest_indicators : List String :=
  ["people", "guests", "guest", "adults", "adult", "person", "persons",
   "for 1", "for 2", "for 3", "for 4", "for 5", "for 6", "for 7", "for 8",
   "1 person", "2 people", "3 people", "4 people", "5 people", "6 people"]

def stop_words : List String :=
  ["no", "not", "don" ++ apo ++ "t", "stop", "wait", "hold on", "first", "before"]

def area_specs : List String :=
  ["downtown", "center", "near", "close to", "area", "district",
   "neighborhood", "region", "zone", "part of", "side of"]

def trigger_property_types : List String :=
  ["apartment", "house", "villa", "cabin", "loft", "cottage", "home",
   "studio", "room", "place", "accommodation", "rental"]

def containsAnyOf (hay : String) (l : List String) : Bool :=
  l.any (fun w => pyIn w hay)

/-- Python `has_additional_info` (lines 169-177). -/
def hasAdditionalInfo (p : SearchParams) : Bool :=
  tInt p.guests || tInt p.max_price || tInt p.min_price || tStr p.property_type
    || tStr p.checkin || tStr p.checkout
    || (match p.amenities with | some l => decide (l.length > 0) | none => false)

/-- Python `detail_patterns` (lines 207-212), compiled without `re.IGNORECASE`:
`\d+`, `[A-Z][a-z]+\s+\d+`, `\d+/\d+`, `\$\d+`. -/
def detailPatterns : List RE :=
  [reDigits,
   reCat [.cls .upperA, .cls .lowerA, .starG (.cls .lowerA), reSp1, reDigits],
   reCat [reDigits, .cls (.oneOf ['/']), reDigits],
   RE.seq (.cls (.oneOf ['$'])) reDigits]

/-- Conversation history: `(sender, text)` pairs. -/
abbrev History := List (String × String)

/-- Concatenated text of previous user turns (line 224). -/
def previousUserText (history : History) : String :=
  String.intercalate " " ((history.filter (fun m => m.1 = "user")).map (·.2))

/-- Python `should_trigger_search(message, params, conversation_history)` of
`backend/validators.py` (lines 96-230). -/
def should_trigger_search (message : String) (params : SearchParams)
    (conversation_history : History) : Bool :=
  if !tStr params.location then false
  else
    let message_lower := pyStrip (pyLower message)
    if affirmative_responses.contains message_lower then true
    else if containsAnyOf message_lower explicit_search_triggers then true
    else if containsAnyOf message_lower price_indicators then true
    else if containsAnyOf message_lower date_indicators then true
    else if containsAnyOf message_lower guest_indicators then true
    else if hasAdditionalInfo params
        && !containsAnyOf message_lower stop_words then true
    else if tStr params.location && containsAnyOf message_lower area_specs then true
    else if tStr params.location
        && containsAnyOf message_lower trigger_property_types then true
    else if tStr params.location
        && detailPatterns.any (fun re => (reSearch re message).isSome) then true
    else if tStr params.location
        && !(pyIn (pyLower (params.location.getD ""))
              (pyLower (previousUserText conversation_history))) then true
    else false

/-! ## Dates (`backend/extractors.py`, `extract_dates_from_text`) -/

structure Date where
  year : Nat
  month : Nat
  day : Nat
deriving Repr, DecidableEq

def isLeap (y : Nat) : Bool := (y % 4 = 0 ∧ y % 100 ≠ 0) ∨ y % 400 = 0

def daysInMonth (y m : Nat) : Nat :=
  if m = 2 then (if isLeap y then 29 else 28)
  else if m = 4 ∨ m = 6 ∨ m = 9 ∨ m = 11 then 30
  else 31

/-- The dates `datetime.strptime` accepts (a `ValueError` models the rest). -/
def validDate (d : Date) : Bool :=
  1 ≤ d.month ∧ d.month ≤ 12 ∧ 1 ≤ d.day ∧ d.day ≤ daysInMonth d.year d.month

/-- Order-preserving key for date comparison (months `≤ 12`, days `≤ 31`
once validity is established). -/
def dkey (d : Date) : Nat := (d.year * 13 + d.month) * 32 + d.day

def dateLt (a b : Date) : Bool := dkey a < dkey b

def dateLe (a b : Date) : Bool := dkey a ≤ dkey b

def nextDay (d : Date) : Date :=
  if d.day < daysInMonth d.year d.month then ⟨d.year, d.month, d.day + 1⟩
  else if d.month < 12 then ⟨d.year, d.month + 1, 1⟩
  else ⟨d.year + 1, 1, 1⟩

/-- Python `date + timedelta(days=n)`. -/
def addDays (d : Date) : Nat → Date
  | 0 => d
  | n + 1 => nextDay (addDays d n)

/-- Python `datetime.replace(year=y)`: raises (`none`) when the day does not
exist in the target year (Feb 29). -/
def replaceYear (d : Date) (y : Nat) : Option Date :=
  if validDate ⟨y, d.month, d.day⟩ then some (⟨y, d.month, d.day⟩ : Date) else none

def pad2 (n : Nat) : String := if n < 10 then "0" ++ toString n else toString n

/-- Python `f"{year}-{month:02d}-{day:02d}"` / `strftime("%Y-%m-%d")`. -/
def fmtDate (d : Date) : String :=
  toString d.year ++ "-" ++ pad2 d.month ++ "-" ++ pad2 d.day

/-- Python `datetime.now()` as seen by the module: the current date plus whether
the time of day is past midnight (it compares against date-only values). -/
structure Now where
  date : Date
  timePos : Bool
deriving Repr, DecidableEq

/-- The month alternation of the date patterns, in source order. -/
def monthRE : RE := reAlts
  (["January", "February", "March", "April", "May", "June", "July", "August",
    "September", "October", "November", "December", "Jan", "Feb", "Mar", "Apr",
    "May", "Jun", "Jul", "Aug", "Sep", "Oct", "Nov", "Dec"].map reStr)

/-- The `month_names` lookup dict (lowercase keys). -/
def month_names : List (String × Nat) :=
  [("january", 1), ("february", 2), ("march", 3), ("april", 4), ("may", 5),
   ("june", 6), ("july", 7), ("august", 8), ("september", 9), ("october", 10),
   ("november", 11), ("december", 12), ("jan", 1), ("feb", 2), ("mar", 3),
   ("apr", 4), ("jun", 6), ("jul", 7), ("aug", 8), ("sep", 9), ("oct", 10),
   ("nov", 11), ("dec", 12)]

def monthNum (s : String) : Option Nat :=
  (month_names.find? (fun p => p.1 = s)).map (·.2)

/-- Regex `(\d{1,2})/(\d{1,2})\s*-\s*(\d{1,2})/(\d{1,2})` -/
def dat1 : RE := reCat [.grp 1 reD12, reC '/', .grp 2 reD12, reSp0, reC '-',
  reSp0, .grp 3 reD12, reC '/', .grp 4 reD12]

/-- Regex `(Month)\s+(\d{1,2})\s*-\s*(?:(Month)\s+)?(\d{1,2})` -/
def dat2 : RE := reCat [.grp 1 monthRE, reSp1, .grp 2 reD12, reSp0, reC '-',
  reSp0, .optG (reCat [.grp 3 monthRE, reSp1]), .grp 4 reD12]

/-- Regex `(\d{1,2})\s+(Month)\s*-\s*(\d{1,2})\s+(Month)` -/
def dat3 : RE := reCat [.grp 1 reD12, reSp1, .grp 2 monthRE, reSp0, reC '-',
  reSp0, .grp 3 reD12, reSp1, .grp 4 monthRE]

/-- Regex `(\d{1,2})-(\d{1,2})\s*(?:to|through|-)\s*(\d{1,2})-(\d{1,2})` -/
def dat4 : RE := reCat [.grp 1 reD12, reC '-', .grp 2 reD12, reSp0,
  reAlts [reStr "to", reStr "through", reC '-'], reSp0,
  .grp 3 reD12, reC '-', .grp 4 reD12]

/-- Regex `check.?in|arrive|arrival|start` -/
def kwCheckIn : RE := reAlts
  [reCat [reStr "check", .optG (.cls .anyNN), reStr "in"],
   reStr "arrive", reStr "arrival", reStr "start"]

/-- Regex `check.?out|leave|departure|end` -/
def kwCheckOut : RE := reAlts
  [reCat [reStr "check", .optG (.cls .anyNN), reStr "out"],
   reStr "leave", reStr "departure", reStr "end"]

/-- Regex `(?:check.?in|arrive|arrival|start).*?(\d{1,2})/(\d{1,2})|(\d{1,2})/(\d{1,2}).*?(?:check.?in|arrive|arrival|start)` -/
def dat5 : RE := RE.alt
  (reCat [kwCheckIn, reLazyAny, .grp 1 reD12, reC '/', .grp 2 reD12])
  (reCat [.grp 3 reD12, reC '/', .grp 4 reD12, reLazyAny, kwCheckIn])

/-- Regex `(?:check.?out|leave|departure|end).*?(\d{1,2})/(\d{1,2})|(\d{1,2})/(\d{1,2}).*?(?:check.?out|leave|departure|end)` -/
def dat6 : RE := RE.alt
  (reCat [kwCheckOut, reLazyAny, .grp 1 reD12, reC '/', .grp 2 reD12])
  (reCat [.grp 3 reD12, reC '/', .grp 4 reD12, reLazyAny, kwCheckOut])

/-- Parse state: the `checkin_date` / `checkout_date` variables. -/
abbrev DState := Option Date × Option Date

/-- The check-in branch (lines 48-53): `int(groups[0] or groups[2])`,
assigned only when both month and day are nonzero. -/
def dateStepCI (Y : Nat) (st : DState) (caps : Caps) : DState :=
  match (capGet caps 1).orElse (fun _ => capGet caps 3),
        (capGet caps 2).orElse (fun _ => capGet caps 4) with
  | some ms, some ds =>
    let m := digitsToNat ms
    let d := digitsToNat ds
    if m ≠ 0 ∧ d ≠ 0 then (some ⟨Y, m, d⟩, st.2) else st
  | _, _ => st

/-- The check-out branch (lines 54-59). -/
def dateStepCO (Y : Nat) (st : DState) (caps : Caps) : DState :=
  match (capGet caps 1).orElse (fun _ => capGet caps 3),
        (capGet caps 2).orElse (fun _ => capGet caps 4) with
  | some ms, some ds =>
    let m := digitsToNat ms
    let d := digitsToNat ds
    if m ≠ 0 ∧ d ≠ 0 then (st.1, some ⟨Y, m, d⟩) else st
  | _, _ => st

/-- The range branch (lines 60-88): requires all four groups; digit-led
matches take the `MM/DD` path (`int()` of a month name raises and the
match is skipped), otherwise month names are looked up. -/
def dateStepRange (Y : Nat) (st : DState) (caps : Caps) : DState :=
  match capGet caps 1, capGet caps 2, capGet caps 3, capGet caps 4 with
  | some g1, some g2, some g3, some g4 =>
    if allDigits g1 then
      if allDigits g2 ∧ allDigits g3 ∧ allDigits g4 then
        (some ⟨Y, digitsToNat g1, digitsToNat g2⟩,
         some ⟨Y, digitsToNat g3, digitsToNat g4⟩)
      else st
    else
      if allDigits g2 ∧ allDigits g4 then
        match monthNum ⟨lowerL g1⟩, monthNum ⟨lowerL g3⟩ with
        | some m1, some m2 =>
          (some ⟨Y, m1, digitsToNat g2⟩, some ⟨Y, m2, digitsToNat g4⟩)
        | _, _ => st
      else st
  | _, _, _, _ => st

/-- The per-pattern match loop: stops early once both dates are set
(line 90-91), but the next pattern still processes its first match. -/
def runDateMatches (step : DState → Caps → DState) : DState → List Caps → DState
  | st, [] => st
  | st, c :: rest =>
    let st' := step st c
    match st' with
    | (some _, some _) => st'
    | _ => runDateMatches step st' rest

/-- The full pattern cascade of `extract_dates_from_text` (lines 23-95);
the outer pattern loop has no break, so later patterns can overwrite. -/
def parseDates (Y : Nat) (text : String) : DState :=
  let st := runDateMatches (dateStepRange Y) (none, none) (reFindIter dat1 text)
  let st := runDateMatches (dateStepRange Y) st (reFindIter dat2 text)
  let st := runDateMatches (dateStepRange Y) st (reFindIter dat3 text)
  let st := runDateMatches (dateStepRange Y) st (reFindIter dat4 text)
  let st := runDateMatches (dateStepCI Y) st (reFindIter dat5 text)
  let st := runDateMatches (dateStepCO Y) st (reFindIter dat6 text)
  st

/-- Python `checkin_dt < today` where `checkin_dt` is at midnight and `today`
carries the wall-clock time. -/
def ciLtNow (ci : Date) (n : Now) : Bool :=
  dateLt ci n.date || (ci = n.date && n.timePos)

/-- The roll condition of lines 112: month/day lexicographically before
today's. -/
def rollCond (ci : Date) (n : Now) : Bool :=
  ci.month < n.date.month || (ci.month = n.date.month && ci.day < n.date.day)

/-- Python `checkout_dt = checkin_dt + timedelta(days=3)` applied when the
parsed checkout is not after the checkin (lines 104-106). -/
def forcedCheckout (ci co : Date) : Date :=
  if dateLe co ci then addDays ci 3 else co

/-- The validation block of `extract_dates_from_text` (lines 98-119):
checkout forced to checkin + 3 days when not after checkin; both dates
rolled one year forward when checkin is past; `ValueError` yields `none`. -/
def fixDatesD (n : Now) (ci co : Date) : Option (Date × Date) :=
  if validDate ci ∧ validDate co then
    if ciLtNow ci n ∧ rollCond ci n then
      match replaceYear ci (n.date.year + 1),
            replaceYear (forcedCheckout ci co) (n.date.year + 1) with
      | some ci2, some co2 => some (ci2, co2)
      | _, _ => none
    else some (ci, forcedCheckout ci co)
  else none

/-- Python `extract_dates_from_text(text)` of `backend/extractors.py`, with
`datetime.now()` passed explicitly; `none` models the `(None, None)`
return. -/
def extract_dates_from_text (text : String) (n : Now) : Option (String × String) :=
  match parseDates n.date.year text with
  | (some ci, some co) =>
    match fixDatesD n ci co with
    | some (a, b) => some (fmtDate a, fmtDate b)
    | none => none
  | _ => none

/-! ## Extractor (`backend/extractors.py`, `extract_search_params_regex`) -/

/-- Word-boundary search for a `\b`-delimited phrase whose segments are
joined by `\s*` gaps; every phrase the source uses starts and ends with a
word character.  `prev` is the character before the current position. -/
def gapSegs : List (List Char) → List Char → Option (List Char)
  | [], s => some s
  | [w], s => if isPrefL w s then some (s.drop w.length) else none
  | w :: rest, s =>
    if isPrefL w s then gapSegs rest ((s.drop w.length).dropWhile isSpaceCh)
    else none

def wbPhraseFound (segs : List (List Char)) : Option Char → List Char → Bool
  | prev, hay =>
    (match gapSegs segs hay with
     | some rest =>
       (match prev with | none => true | some c => !isWordCh c)
         && (match rest with | [] => true | c :: _ => !isWordCh c)
     | none => false)
    || (match hay with
        | [] => false
        | c :: rest => wbPhraseFound segs (some c) rest)

/-- Python `re.search(r'\b' + re.escape(w) + r'\b', hay)` for a single literal. -/
def wbFound (w : List Char) (hay : List Char) : Bool :=
  wbPhraseFound [w] none hay

/-- Python `known_locations` (lines 224-231), in source order. -/
def known_locations : List String :=
  ["almaty", "astana", "shymkent", "aktobe", "taraz", "pavlodar",
   "tokyo", "new york", "london", "paris", "berlin", "madrid", "rome",
   "moscow", "beijing", "seoul", "bangkok", "dubai", "istanbul", "kazakhstan",
   "стамбул", "москва", "алматы", "астана", "токио", "лондон", "париж"]

/-- The gazetteer pass (lines 236-242): first known name occurring as a
whole word in the lowercased text, title-cased. -/
def findKnownLocation (text : String) : Option String :=
  (known_locations.find?
      (fun k => wbFound (pyLower k).toList (pyLower text).toList)).map pyTitle

/-- Regex `[A-Z][a-zA-Z]{2,}` under `re.IGNORECASE` (≥ 3 letters). -/
def locWord3 : RE := reCat [.cls .alpha, .cls .alpha, .cls .alpha, .starG (.cls .alpha)]

/-- Regex `[A-Z][a-zA-Z]+` under `re.IGNORECASE` (≥ 2 letters). -/
def locWord2 : RE := reCat [.cls .alpha, .cls .alpha, .starG (.cls .alpha)]

/-- Location pattern 1 (line 249). -/
def loc1 : RE := reCat
  [reAlts [reStr "in", reStr "to", reStr "at", reStr "visit", reStr "stay in",
    reStr "going to", reStr "traveling to", reStr "fly to", reStr "book in",
    reCat [reStr "rent", reAnyG, reStr "in"]],
   reSp1,
   .grp 1 (RE.seq locWord3 (.starL (RE.seq reSp1 locWord2))),
   reAlts [reCat [reSp1, reStr "in", reSp1, .cls .digit],
     reCat [reSp1, reStr "for", reSp1, .cls .digit],
     reCat [reSp1, reStr "with", reSp1, .cls .digit],
     RE.seq reSp0 (.cls (.oneOf [',', '.'])),
     RE.seq reSp0 .eos]]

/-- Location pattern 2 (line 251). -/
def loc2 : RE := reCat
  [reAlts [reStr "place", reStr "area", reStr "city", reStr "town"],
   reSp1, reAlts [reStr "like", reStr "in", reStr "near"], reSp1,
   .grp 1 (RE.seq locWord3 (.starG (RE.seq reSp1 locWord2)))]

/-- Python `non_locations` (lines 262-272). -/
def non_locations : List String :=
  ["help", "looking", "need", "want", "find", "search", "book", "stay",
   "apartment", "house", "place", "room", "home", "hotel", "rental",
   "cheap", "expensive", "budget", "luxury", "nice", "good", "great", "perfect",
   "people", "guests", "adults", "person", "me", "us", "them",
   "night", "day", "week", "month", "year", "time", "date",
   "price", "cost", "money", "dollar", "accommodation",
   "something", "somewhere", "anywhere", "anything", "everything",
   "you", "the", "airbnb", "help you find",
   "mountains", "beach", "downtown", "center", "close", "closer", "near"]

/-- The candidate filter of lines 275-290. -/
def locCandidateOk (location : String) : Bool :=
  let locationNorm := pyLower (pyStrip location)
  let ws := pyWords locationNorm.toList
  ws.all (fun w => !non_locations.contains (String.mk w))
    && locationNorm.length > 2
    && !non_locations.contains locationNorm
    && !(["help you", "find the", "perfect airbnb"].any
          (fun ph => pyIn ph locationNorm))

/-- First acceptable candidate among a pattern's matches (lines 255-297). -/
def firstLocFromMatches : List Caps → Option String
  | [] => none
  | c :: rest =>
    let location := pyStrip (String.mk ((capGet c 1).getD []))
    if locCandidateOk location then some (pyTitle location)
    else firstLocFromMatches rest

/-- The pattern pass of the location matcher (lines 245-297). -/
def patternLocation (text : String) : Option String :=
  match firstLocFromMatches (reFindIter loc1 text) with
  | some l => some l
  | none => firstLocFromMatches (reFindIter loc2 text)

/-- Location extraction: gazetteer first, then contextual patterns. -/
def extractLocation (text : String) : Option String :=
  match findKnownLocation text with
  | some l => some l
  | none => patternLocation text

/-- Regex `(?:for|with)\s+(\d+)` -/
def gp2 : RE := reCat [reAlts [reStr "for", reStr "with"], reSp1, .grp 1 reDigits]

/-- The guest loop (lines 306-310): first matching pattern assigns and
breaks (a match with guests already truthy falls through without a break,
which cannot happen from the initial `None`). -/
def guestLoop (text : String) : List RE → Option Int → Option Int
  | [], acc => acc
  | re :: rest, acc =>
    match reSearch re text with
    | some caps =>
      if !tInt acc then some (Int.ofNat (digitsToNat ((capGet caps 1).getD [])))
      else guestLoop text rest acc
    | none => guestLoop text rest acc

def extractGuests (text : String) : Option Int :=
  guestLoop text [vgp1, gp2, vgp3] none

/-- Regex `(\d+)\s*(?:usd|USD|dollars?)\s*(?:max|maximum|per\s*day\s*max)` -/
def bp1 : RE := reCat [.grp 1 reDigits, reSp0,
  reAlts [reStr "usd", reStr "usd", RE.seq (reStr "dollar") (.optG (reC 's'))],
  reSp0,
  reAlts [reStr "max", reStr "maximum",
    reCat [reStr "per", reSp0, reStr "day", reSp0, reStr "max"]]]

/-- Regex `(\d+)\s*(?:per\s*day|daily|nightly?)\s*(?:max|maximum)` -/
def bp2 : RE := reCat [.grp 1 reDigits, reSp0,
  reAlts [reCat [reStr "per", reSp0, reStr "day"], reStr "daily",
    RE.seq (reStr "nightl") (.optG (reC 'y'))],
  reSp0, reAlts [reStr "max", reStr "maximum"]]

/-- Regex `max(?:imum)?\s*(?:of\s*)?(?:usd\s*)?(?:\$)?(\d+)` -/
def bp3 : RE := reCat [reStr "max", .optG (reStr "imum"), reSp0,
  .optG (RE.seq (reStr "of") reSp0), .optG (RE.seq (reStr "usd") reSp0),
  .optG (reC '$'), .grp 1 reDigits]

/-- Regex `under\s*(?:\$)?(\d+)` -/
def bp4 : RE := reCat [reStr "under", reSp0, .optG (reC '$'), .grp 1 reDigits]

/-- Regex `below\s*(?:\$)?(\d+)` -/
def bp5 : RE := reCat [reStr "below", reSp0, .optG (reC '$'), .grp 1 reDigits]

/-- Regex `up\s*to\s*(?:\$)?(\d+)` -/
def bp6 : RE := reCat [reStr "up", reSp0, reStr "to", reSp0, .optG (reC '$'),
  .grp 1 reDigits]

/-- Regex `(\d+)\s*(?:kzt|tenge)` -/
def bp7 : RE := reCat [.grp 1 reDigits, reSp0, reAlts [reStr "kzt", reStr "tenge"]]

/-- Regex `\$(\d+)(?:\s*-\s*\$?(\d+))?` -/
def bp8 : RE := reCat [reC '$', .grp 1 reDigits,
  .optG (reCat [reSp0, reC '-', reSp0, reDollarOpt, .grp 2 reDigits])]

/-- Regex `(\d+)\s*(?:to|through|-)\s*(\d+)\s*(?:dollars?|\$)` -/
def bp9 : RE := reCat [.grp 1 reDigits, reSp0,
  reAlts [reStr "to", reStr "through", reC '-'], reSp0, .grp 2 reDigits, reSp0,
  reAlts [RE.seq (reStr "dollar") (.optG (reC 's')), reC '$']]

/-- Regex `budget\s+(?:of\s+)?(?:around\s+)?\$?(\d+)` -/
def bp10 : RE := reCat [reStr "budget", reSp1, .optG (RE.seq (reStr "of") reSp1),
  .optG (RE.seq (reStr "around") reSp1), reDollarOpt, .grp 1 reDigits]

/-- The `budget_patterns` list; the flag marks the KZT pattern, which is
detected in the source by `'kzt' in pattern.lower()`. -/
def bpPatterns : List (RE × Bool) :=
  [(bp1, false), (bp2, false), (bp3, false), (bp4, false), (bp5, false),
   (bp6, false), (bp7, true), (bp8, false), (bp9, false), (bp10, false)]

/-- Outcome of the extractor's budget loop (lines 326-354). -/
inductive BudgetKind
  | kzt (k : Nat)
  | two (n1 n2 : Nat)
  | one (p : Nat) (isMax : Bool)
deriving Repr, DecidableEq

/-- Python `any(word in pattern_text for word in ["max","under","below","up to"])` -/
def bpIsMax (caps : Caps) : Bool :=
  let g0 := lowerL ((capGet caps 0).getD [])
  hasSubL "max".toList g0 || hasSubL "under".toList g0 ||
    hasSubL "below".toList g0 || hasSubL "up to".toList g0

/-- The budget pattern loop: the first matching pattern wins
(`match.lastindex >= 2 and match.group(2)` holds exactly when group 2
captured). -/
def bpStep (text : String) : List (RE × Bool) → Option BudgetKind
  | [] => none
  | (re, isKzt) :: rest =>
    match reSearch re text with
    | none => bpStep text rest
    | some caps =>
      if isKzt then some (.kzt (digitsToNat ((capGet caps 1).getD [])))
      else
        match capGet caps 2 with
        | some g2 =>
          some (.two (digitsToNat ((capGet caps 1).getD [])) (digitsToNat g2))
        | none => some (.one (digitsToNat ((capGet caps 1).getD [])) (bpIsMax caps))

def budgetCascadeR (text : String) : Option BudgetKind := bpStep text bpPatterns

/-- Price assignment of the budget loop: KZT converted at 1 USD = 450 KZT
by floor division; a single number becomes either a pure maximum or a
±30 band floored at 20. -/
def applyBudget : Option BudgetKind → SearchParams → SearchParams
  | none, p => p
  | some (.kzt k), p => { p with max_price := some (Int.ofNat (k / 450)) }
  | some (.two n1 n2), p =>
    { p with min_price := some (Int.ofNat n1), max_price := some (Int.ofNat n2) }
  | some (.one pr true), p => { p with max_price := some (Int.ofNat pr) }
  | some (.one pr false), p =>
    { p with min_price := some (max 20 ((pr : Int) - 30)),
             max_price := some ((pr : Int) + 30) }

/-- Python `property_patterns` with the canonical value `property_mapping`
assigns to every alternative of that pattern (lines 357-373). -/
def propertyPatterns : List (List String × String) :=
  [(["house", "houses", "home", "homes"], "house"),
   (["apartment", "apartments", "apt", "apts"], "apartment"),
   (["villa", "villas"], "villa"),
   (["cabin", "cabins"], "cabin"),
   (["loft", "lofts"], "loft"),
   (["cottage", "cottages"], "cottage")]

def wordAltFound (ws : List String) (tl : List Char) : Bool :=
  ws.any (fun w => wbFound w.toList tl)

/-- Property-type extraction (lines 375-381): first pattern in order with
a `\b`-bounded occurrence. -/
def extractProperty (text : String) : Option String :=
  (propertyPatterns.find? (fun pr => wordAltFound pr.1 (pyLower text).toList)).map
    (·.2)

/-- Python `amenity_patterns` (lines 384-394): name, alternatives (inner lists
are `\s*`-joined segments). -/
def amenityPatterns : List (String × List (List String)) :=
  [("wifi", [["wifi"], ["wi-fi"], ["internet"], ["wireless"]]),
   ("kitchen", [["kitchen"], ["cook"], ["cooking"], ["kitchenette"]]),
   ("pool", [["pool"], ["swimming"], ["swim"]]),
   ("parking", [["parking"], ["garage"], ["park"]]),
   ("air_conditioning", [["air", "conditioning"], ["ac"], ["a/c"], ["cool"], ["cooling"]]),
   ("washer", [["washer"], ["washing"], ["laundry"]]),
   ("hot_tub", [["hot", "tub"], ["jacuzzi"], ["spa"]]),
   ("gym", [["gym"], ["fitness"], ["workout"]]),
   ("pets_allowed", [["pet"], ["pets"], ["dog"], ["cat"], ["pet-friendly"]])]

/-- Amenity collection (lines 396-402): all matching names in dict order;
left `None` when nothing matched. -/
def extractAmenities (text : String) : Option (List String) :=
  let tl := (pyLower text).toList
  let detected := (amenityPatterns.filter
      (fun pr => pr.2.any (fun alts => wbPhraseFound (alts.map String.toList) none tl))).map
      (·.1)
  if detected.isEmpty then none else some detected

/-- Python `extract_search_params_regex(conversation_text)` of
`backend/extractors.py` (lines 210-406), with `datetime.now()` explicit. -/
def extract_search_params_regex (text : String) (n : Now) : SearchParams :=
  let p : SearchParams := {}
  let p :=
    match extract_dates_from_text text n with
    | some (ci, co) => { p with checkin := some ci, checkout := some co }
    | none => p
  let p := { p with location := extractLocation text }
  let p := { p with guests := extractGuests text }
  let p := applyBudget (budgetCascadeR text) p
  let p := { p with property_type := extractProperty text }
  let p := { p with amenities := extractAmenities text }
  p

/-- Python `extract_search_params(conversation_text)` of `backend/extractors.py`
(lines 408-442).  The external completion service is an oracle: `llm` is
whatever `extract_search_params_with_llm` returned (that call never
raises — on any failure it itself falls back to the regex result).
Fallback fields are merged only into falsy deterministic fields. -/
def extract_search_params (text : String) (n : Now) (llm : SearchParams) :
    SearchParams :=
  let params := extract_search_params_regex text n
  let needs_llm := !tStr params.location && decide (text.length > 50)
      && ["accommodation", "travel", "trip", "visit", "booking", "stay"].any
           (fun kw => pyIn kw (pyLower text))
  if needs_llm then
    let p := if tStr llm.location && !tStr params.location then
        { params with location := llm.location } else params
    let p := if tStr llm.checkin && !tStr p.checkin then
        { p with checkin := llm.checkin } else p
    let p := if tStr llm.checkout && !tStr p.checkout then
        { p with checkout := llm.checkout } else p
    let p := if tInt llm.guests && !tInt p.guests then
        { p with guests := llm.guests } else p
    let p := if tInt llm.min_price && !tInt p.min_price then
        { p with min_price := llm.min_price } else p
    let p := if tInt llm.max_price && !tInt p.max_price then
        { p with max_price := llm.max_price } else p
    p
  else params

/-! ## URL construction (`backend/utils.py`, `build_airbnb_url`) -/

def AIRBNB_AMENITIES : List (String × Nat) :=
  [("wifi", 4), ("kitchen", 8), ("washer", 33), ("dryer", 34),
   ("air_conditioning", 5), ("heating", 30), ("tv", 1), ("pool", 7),
   ("hot_tub", 25), ("parking", 9), ("gym", 15), ("breakfast", 16),
   ("pets_allowed", 12), ("smoking_allowed", 11), ("elevator", 21),
   ("wheelchair_accessible", 65)]

def AIRBNB_PROPERTY_TYPES : List (String × Nat) :=
  [("house", 1), ("apartment", 2), ("bed_and_breakfast", 3),
   ("boutique_hotel", 43), ("bungalow", 7), ("cabin", 8), ("chalet", 10),
   ("cottage", 11), ("loft", 17), ("villa", 32), ("townhouse", 31)]

def lookupTbl (tbl : List (String × Nat)) (k : String) : Option Nat :=
  (tbl.find? (fun p => p.1 = k)).map (·.2)

def utf8Bytes (c : Char) : List Nat :=
  let v := c.toNat
  if v < 0x80 then [v]
  else if v < 0x800 then [0xC0 + v / 0x40, 0x80 + v % 0x40]
  else if v < 0x10000 then
    [0xE0 + v / 0x1000, 0x80 + (v / 0x40) % 0x40, 0x80 + v % 0x40]
  else
    [0xF0 + v / 0x40000, 0x80 + (v / 0x1000) % 0x40,
     0x80 + (v / 0x40) % 0x40, 0x80 + v % 0x40]

def hexDigitCh (n : Nat) : Char :=
  if n < 10 then Char.ofNat ('0'.toNat + n) else Char.ofNat ('A'.toNat + n - 10)

def pctByte (b : Nat) : List Char := ['%', hexDigitCh (b / 16), hexDigitCh (b % 16)]

/-- Python `urllib.parse.quote_plus`: unreserved characters kept, space becomes
`+`, everything else UTF-8 percent-encoded. -/
def quote_plus (s : String) : String :=
  ⟨s.toList.foldr (fun c acc =>
    (if isAsciiAlpha c ∨ isDigitCh c ∨ c = '_' ∨ c = '.' ∨ c = '-' ∨ c = '~'
     then [c]
     else if c = ' ' then ['+']
     else (utf8Bytes c).foldr (fun b bacc => pctByte b ++ bacc) []) ++ acc) []⟩

/-- Default dates (lines 30-36): one week from now, three nights. -/
def defaultDateParams (n : Now) : List String :=
  ["checkin=" ++ fmtDate (addDays n.date 7), "checkout=" ++ fmtDate (addDays n.date 10)]

/-- Python `build_airbnb_url(params)` of `backend/utils.py`, with
`datetime.now()` explicit. -/
def build_airbnb_url (params : SearchParams) (n : Now) : String :=
  if !tStr params.location then "https://www.airbnb.com/s/homes"
  else
    let locationNorm := quote_plus (params.location.getD "")
    let base_url := "https://www.airbnb.com/s/" ++ locationNorm ++ "/homes"
    let qp : List String := ["currency=USD"]
    let qp := qp ++
      (if tInt params.guests then ["adults=" ++ toString (params.guests.getD 0)]
       else [])
    let qp := qp ++
      (match params.checkin, params.checkout with
       | some ci, some co =>
         if ci ≠ "" ∧ co ≠ "" then ["checkin=" ++ ci, "checkout=" ++ co]
         else defaultDateParams n
       | _, _ => defaultDateParams n)
    let qp := qp ++
      (if tInt params.min_price then
        ["price_min=" ++ toString (params.min_price.getD 0)] else [])
    let qp := qp ++
      (if tInt params.max_price then
        ["price_max=" ++ toString (params.max_price.getD 0)] else [])
    let qp := qp ++
      (match params.property_type with
       | some pt =>
         if pt ≠ "" then
           match lookupTbl AIRBNB_PROPERTY_TYPES (pyLower pt) with
           | some pid => ["property_type_id%5B0%5D=" ++ toString pid]
           | none => []
         else []
       | none => [])
    let qp := qp ++ ["room_types%5B%5D=Entire%20home%2Fapt"]
    let qp := qp ++
      (match params.amenities with
       | some ams =>
         ams.foldl (fun acc a =>
           acc ++
             (match lookupTbl AIRBNB_AMENITIES (pyLower a) with
              | some aid =>
                ["amenities%5B" ++ toString aid ++ "%5D=" ++ toString aid]
              | none => [])) []
       | none => [])
    let qp := qp ++
      ((["wifi", "kitchen"].filter (fun a =>
          match params.amenities with
          | some ams => !(tList (some ams)) || !((ams.map pyLower).contains a)
          | none => true)).map (fun a =>
        let aid := (lookupTbl AIRBNB_AMENITIES a).getD 0
        "amenities%5B" ++ toString aid ++ "%5D=" ++ toString aid))
    if qp.isEmpty then base_url
    else base_url ++ "?" ++ String.intercalate "&" qp

/-! ## Retrieval pipeline (`backend/scrapers.py`)

The two live tiers fetch and parse an external site; what they found is
passed in as explicit inputs: `reqFound` / `selFound` are the candidate
records the tier's selector cascade accumulated (empty on any caught
error — both tiers swallow all exceptions), `selErr` is the rendered
tier's catch-all branch, `timeExceeded` the 15-second budget check. -/

structure Listing where
  title : String
  price : String
  rating : String
  link : String
  source : String
deriving Repr, DecidableEq

/-- A candidate record accumulated by a tier before tagging. -/
structure RawListing where
  title : String
  price : String
  rating : String
  link : String
deriving Repr, DecidableEq

/-- Python `scrape_airbnb_listings_requests` (lines 397-475): accumulated
records tagged `airbnb_requests`, truncated to `max_listings`;
empty on error. -/
def scrape_airbnb_listings_requests (rawFound : List RawListing)
    (max_listings : Nat) : List Listing :=
  (rawFound.map (fun r => Listing.mk r.title r.price r.rating r.link
    "airbnb_requests")).take max_listings

def redirectListing (search_url : String) : Listing :=
  ⟨"Properties available on Airbnb", "Visit site for current pricing",
   "See reviews on Airbnb", search_url, "airbnb_redirect"⟩

/-- Python `scrape_airbnb_listings_selenium` (lines 82-395): real records are
tagged `airbnb_selenium`; when none were scraped a redirect placeholder
is substituted before the `[:max_listings]` cut; the catch-all error
branch returns the placeholder untruncated. -/
def scrape_airbnb_listings_selenium (search_url : String) (max_listings : Nat)
    (err : Bool) (rawFound : List RawListing) : List Listing :=
  if err then [redirectListing search_url]
  else
    let listings := rawFound.map (fun r =>
      Listing.mk r.title r.price r.rating r.link "airbnb_selenium")
    let listings := if listings.isEmpty then [redirectListing search_url]
      else listings
    listings.take max_listings

/-- Python `s.split(sep)` for a nonempty separator. -/
def splitOnSubGo (sep : List Char) : Nat → List Char → List Char → List (List Char)
  | 0, cur, _ => [cur.reverse]
  | _ + 1, cur, [] => [cur.reverse]
  | n + 1, cur, s@(c :: rest) =>
    if isPrefL sep s then cur.reverse :: splitOnSubGo sep n [] (s.drop sep.length)
    else splitOnSubGo sep n (c :: cur) rest

def splitOnSub (sep : String) (s : String) : List (List Char) :=
  splitOnSubGo sep.toList (s.toList.length + 1) [] s.toList

/-- Python `search_url.split("/s/")[1].split("/")[0].replace("-", " ").title()`
guarded by `"/s/" in search_url` and a catch-all (lines 517-522). -/
def fallbackLocation (search_url : String) : String :=
  if pyIn "/s/" search_url then
    match splitOnSub "/s/" search_url with
    | _ :: second :: _ =>
      match splitOnSub "/" (String.mk second) with
      | first :: _ =>
        pyTitle (String.mk (first.map (fun c => if c = '-' then ' ' else c)))
      | [] => "your location"
    | _ => "your location"
  else "your location"

/-- Python `generate_fallback_results(search_url)` (lines 514-532). -/
def generate_fallback_results (search_url : String) : List Listing :=
  [⟨"Properties available in " ++ fallbackLocation search_url,
    "Visit Airbnb for current pricing", "See actual reviews on site",
    search_url, "airbnb_redirect"⟩]

/-- Python `scrape_airbnb_listings(search_url, max_listings)` (lines 477-512):
requests tier first, the time-budget check, the rendered tier accepted
only when it holds a `selenium`-tagged record, then the degraded tier. -/
def scrape_airbnb_listings (search_url : String) (max_listings : Nat)
    (reqFound : List RawListing) (timeExceeded : Bool)
    (selErr : Bool) (selFound : List RawListing) : List Listing :=
  let results := scrape_airbnb_listings_requests reqFound max_listings
  if !results.isEmpty then results
  else if timeExceeded then generate_fallback_results search_url
  else
    let results2 := scrape_airbnb_listings_selenium search_url max_listings
      selErr selFound
    if !results2.isEmpty && results2.any (fun r => pyIn "selenium" r.source) then
      results2
    else generate_fallback_results search_url

/-! ## Supporting lemmas -/

/-- The guest re-derivation loop only accepts counts in `[1,16]`. -/
theorem guestFromMatches_sound (l : List Caps) (g : Nat)
    (h : guestFromMatches l = some g) : 1 ≤ g ∧ g ≤ 16 := by
  induction l with
  | nil => simp [guestFromMatches] at h
  | cons c rest ih =>
    simp only [guestFromMatches] at h
    split at h
    · cases h; omega
    · exact ih h

theorem rederiveGuests_sound (t : String) (g : Nat)
    (h : rederiveGuests t = some g) : 1 ≤ g ∧ g ≤ 16 := by
  unfold rederiveGuests at h
  split at h
  · cases h
    exact guestFromMatches_sound _ _ (by assumption)
  · split at h
    · cases h
      exact guestFromMatches_sound _ _ (by assumption)
    · exact guestFromMatches_sound _ _ h

/-- The price-repair loop only returns numbers passing the
`20 ≤ n ≤ 1000` sanity check. -/
theorem pfpStep_sound (t : String) (l : List (RE × Bool)) (k : FixKind)
    (h : pfpStep t l = some k) :
    (∀ n1 n2, k = .two n1 n2 → 20 ≤ n1 ∧ n1 ≤ 1000 ∧ 20 ≤ n2 ∧ n2 ≤ 1000) ∧
    (∀ p b, k = .one p b → 20 ≤ p ∧ p ≤ 1000) := by
  induction l with
  | nil => simp [pfpStep] at h
  | cons hd tl ih =>
    obtain ⟨re, isTwo⟩ := hd
    simp only [pfpStep] at h
    split at h
    · exact ih h
    · split at h
      · split at h
        · cases h
          constructor
          · intro n1 n2 he
            cases he
            omega
          · intro p b he
            cases he
        · exact ih h
      · split at h
        · cases h
          constructor
          · intro n1 n2 he
            cases he
          · intro p b he
            cases he
            omega
        · exact ih h

theorem priceFixCascade_sound (t : String) (k : FixKind)
    (h : priceFixCascade t = some k) :
    (∀ n1 n2, k = .two n1 n2 → 20 ≤ n1 ∧ n1 ≤ 1000 ∧ 20 ≤ n2 ∧ n2 ≤ 1000) ∧
    (∀ p b, k = .one p b → 20 ≤ p ∧ p ≤ 1000) :=
  pfpStep_sound t pfPatterns k h

theorem ne_nil_isEmpty {α : Type} {l : List α} (h : l ≠ []) : l.isEmpty = false := by
  cases l with
  | nil => exact absurd rfl h
  | cons a b => rfl

/-- Term `applyFix` rewrites only the two price fields. -/
theorem applyFix_guests (k : FixKind) (q : SearchParams) :
    (applyFix k q).guests = q.guests := by
  cases k with
  | two n1 n2 => rfl
  | one p b => cases b <;> rfl

/-! ## Claim theorems -/

/-- C9: for every query whose location is absent, `build_airbnb_url`
returns exactly the bare URL with no query parameters. -/
theorem C9_no_location_bare_url (p : SearchParams) (n : Now)
    (h : p.location = none) :
    build_airbnb_url p n = "https://www.airbnb.com/s/homes" := by
  simp [build_airbnb_url, tStr, h]

/-- C9 witness: the empty query at a concrete date. -/
theorem C9_witness :
    build_airbnb_url {} ⟨⟨2026, 10, 12⟩, true⟩ = "https://www.airbnb.com/s/homes" :=
  C9_no_location_bare_url {} ⟨⟨2026, 10, 12⟩, true⟩ rfl

/-- C10: when the budget loop resolves to the KZT pattern with an amount
below 450, the floor division makes `max_price` exactly 0 and
`min_price` stays unset. -/
theorem C10_kzt_floor_div (t : String) (n : Now) (k : Nat)
    (hc : budgetCascadeR t = some (.kzt k)) (hk : k < 450) :
    (extract_search_params_regex t n).max_price = some 0 ∧
    (extract_search_params_regex t n).min_price = none := by
  have h0 : k / 450 = 0 := Nat.div_eq_of_lt hk
  cases hd : extract_dates_from_text t n with
  | none => simp [extract_search_params_regex, hd, hc, applyBudget, h0]
  | some pr =>
    obtain ⟨a, b⟩ := pr
    simp [extract_search_params_regex, hd, hc, applyBudget, h0]

/-- C10 witness: "300 tenge" converts to `max_price = 0`. -/
theorem C10_witness :
    (extract_search_params_regex "300 tenge" ⟨⟨2026, 10, 12⟩, true⟩).max_price = some 0 ∧
    (extract_search_params_regex "300 tenge" ⟨⟨2026, 10, 12⟩, true⟩).min_price = none :=
  C10_kzt_floor_div "300 tenge" ⟨⟨2026, 10, 12⟩, true⟩ 300 (by decide) (by decide)

/-- C1 counterexample: at `maxResults = 0` with both tiers empty, the
pipeline still returns the single degraded record, so the returned length
exceeds `maxResults`. -/
theorem C1_counterexample :
    (scrape_airbnb_listings "https://www.airbnb.com/s/homes" 0 [] false false []).length = 1 ∧
    ¬ ((scrape_airbnb_listings "https://www.airbnb.com/s/homes" 0 [] false false []).length ≤ 0) := by
  decide

/-- C1 (amended): for every `maxResults ≥ 1` the pipeline returns a
non-empty sequence of at most `maxResults` records, and when both live
tiers produce nothing the single degraded record's link is the query URL
(at `maxResults = 0` the degraded record still makes the result length 1). -/
theorem C1_retrieve_bounded (url : String) (m : Nat) (req : List RawListing)
    (te serr : Bool) (sel : List RawListing) (hm : 1 ≤ m) :
    scrape_airbnb_listings url m req te serr sel ≠ [] ∧
    (scrape_airbnb_listings url m req te serr sel).length ≤ m ∧
    ((scrape_airbnb_listings_requests req m = [] ∧
        (te = true ∨ serr = true ∨ sel = [])) →
      scrape_airbnb_listings url m req te serr sel =
        generate_fallback_results url ∧
      (generate_fallback_results url).map Listing.link = [url]) := by
  have hfb : ∀ u, (generate_fallback_results u).length = 1 := by
    intro u; rfl
  have hfbl : (generate_fallback_results url).map Listing.link = [url] := by
    simp [generate_fallback_results]
  unfold scrape_airbnb_listings
  by_cases h1 : scrape_airbnb_listings_requests req m = []
  · rw [h1]
    simp only [List.isEmpty_nil, Bool.not_true, Bool.false_eq_true, if_false]
    by_cases hte : te = true
    · rw [if_pos hte]
      refine ⟨by simp [generate_fallback_results], by rw [hfb]; omega,
        fun _ => ⟨rfl, hfbl⟩⟩
    · rw [if_neg hte]
      by_cases hse : serr = true
      · have : scrape_airbnb_listings_selenium url m serr sel =
            [redirectListing url] := by
          rw [hse]; rfl
        rw [this]
        have hany : ([redirectListing url].any fun r => pyIn "selenium" r.source) = false := by
          simp only [List.any_cons, List.any_nil, Bool.or_false, redirectListing]
          decide
        simp only [hany, Bool.and_false, Bool.false_eq_true, if_false]
        refine ⟨by simp [generate_fallback_results], by rw [hfb]; omega,
          fun _ => ⟨trivial, hfbl⟩⟩
      · have hse' : serr = false := by
          cases serr
          · rfl
          · exact absurd rfl hse
        cases hsel : sel with
        | nil =>
          have : scrape_airbnb_listings_selenium url m serr [] =
              [redirectListing url] := by
            rw [hse']
            simp only [scrape_airbnb_listings_selenium, Bool.false_eq_true,
              if_false, List.map_nil, List.isEmpty_nil, if_true]
            exact List.take_of_length_le (by simp; omega)
          rw [this]
          have hany : ([redirectListing url].any fun r => pyIn "selenium" r.source) = false := by
            simp only [List.any_cons, List.any_nil, Bool.or_false, redirectListing]
            decide
          simp only [hany, Bool.and_false, Bool.false_eq_true, if_false]
          refine ⟨by simp [generate_fallback_results], by rw [hfb]; omega,
            fun _ => ⟨trivial, hfbl⟩⟩
        | cons shd stl =>
          have hr2 : scrape_airbnb_listings_selenium url m serr (shd :: stl) =
              ((shd :: stl).map (fun r =>
                Listing.mk r.title r.price r.rating r.link "airbnb_selenium")).take m := by
            rw [hse']
            simp [scrape_airbnb_listings_selenium]
          rw [hr2]
          have hne : (((shd :: stl).map (fun r =>
              Listing.mk r.title r.price r.rating r.link "airbnb_selenium")).take m) ≠ [] := by
            simp [List.take_eq_nil_iff]
            omega
          have hmem : ∀ x ∈ ((shd :: stl).map (fun r =>
              Listing.mk r.title r.price r.rating r.link "airbnb_selenium")).take m,
              x.source = "airbnb_selenium" := by
            intro x hx
            have := List.mem_of_mem_take hx
            simp only [List.mem_map] at this
            obtain ⟨r, _, hr⟩ := this
            rw [← hr]
          have hany : (((shd :: stl).map (fun r =>
              Listing.mk r.title r.price r.rating r.link "airbnb_selenium")).take m).any
                (fun r => pyIn "selenium" r.source) = true := by
            rw [List.any_eq_true]
            obtain ⟨x, hx⟩ := List.exists_mem_of_ne_nil _ hne
            exact ⟨x, hx, by rw [hmem x hx]; decide⟩
          have hie : (((shd :: stl).map (fun r =>
              Listing.mk r.title r.price r.rating r.link "airbnb_selenium")).take m).isEmpty = false :=
            ne_nil_isEmpty hne
          simp only [hie, hany, Bool.not_false, Bool.and_true, if_true]
          refine ⟨hne, by simp [Nat.min_le_left], ?_⟩
          rintro ⟨-, h2⟩
          rcases h2 with h2 | h2 | h2
          · exact absurd h2 hte
          · exact absurd h2 hse
          · cases h2
  · have hie : (scrape_airbnb_listings_requests req m).isEmpty = false :=
      ne_nil_isEmpty h1
    simp only [hie, Bool.not_false, if_true]
    refine ⟨h1, ?_, fun hc => absurd hc.1 h1⟩
    unfold scrape_airbnb_listings_requests
    simp [Nat.min_le_left]

/-- C1 witness: time budget exhausted with nothing from the fast tier. -/
theorem C1_witness :
    scrape_airbnb_listings "https://x" 3 [] true false [] ≠ [] ∧
    (scrape_airbnb_listings "https://x" 3 [] true false []).length ≤ 3 ∧
    ((scrape_airbnb_listings_requests [] 3 = [] ∧
        (true = true ∨ false = true ∨ ([] : List RawListing) = [])) →
      scrape_airbnb_listings "https://x" 3 [] true false [] =
        generate_fallback_results "https://x" ∧
      (generate_fallback_results "https://x").map Listing.link = ["https://x"]) :=
  C1_retrieve_bounded "https://x" 3 [] true false [] (by decide)

/-- C2 counterexample: an inverted range survives validation untouched
when the source text is empty (the repair loop is skipped), so the
validated query has `min_price > max_price`. -/
theorem C2_counterexample :
    (validate_and_fix_params { min_price := some 300, max_price := some 100 } "").min_price = some 300 ∧
    (validate_and_fix_params { min_price := some 300, max_price := some 100 } "").max_price = some 100 ∧
    (300 : Int) > 100 := by
  decide

/-- C2 (amended): `min_price ≤ max_price` is guaranteed only when the
price-repair loop actually rewrites the prices (nonempty source text,
suspect prices, and a pattern match passing the sanity check); otherwise
an invalid range can pass through. -/
theorem C2_min_le_max_when_repair_fires (p : SearchParams) (t : String)
    (k : FixKind) (ht : t ≠ "")
    (hs : shouldFixPrice (fixGuests p t) = true)
    (hc : priceFixCascade t = some k) (a b : Int)
    (hmn : (validate_and_fix_params p t).min_price = some a)
    (hmx : (validate_and_fix_params p t).max_price = some b) : a ≤ b := by
  have hsd := priceFixCascade_sound t k hc
  have hval : validate_and_fix_params p t =
      capsDefaults (applyFix k (fixGuests p t)) := by
    simp only [validate_and_fix_params, hs, hc]
    rw [if_pos ht]
    simp
  rw [hval] at hmn hmx
  cases k with
  | two n1 n2 =>
    obtain ⟨h1, h2, h3, h4⟩ := hsd.1 n1 n2 rfl
    simp only [applyFix, capsDefaults] at hmn hmx
    split_ifs at hmn hmx <;> (cases hmn; cases hmx; omega)
  | one pr isMax =>
    obtain ⟨h1, h2⟩ := hsd.2 pr isMax rfl
    cases isMax <;>
      (simp only [applyFix, capsDefaults] at hmn hmx
       split_ifs at hmn hmx <;> (cases hmn; cases hmx; omega))

/-- C2 witness: the repair fires on "around 200" and yields 150 ≤ 250. -/
theorem C2_witness :
    priceFixCascade "around 200" = some (.one 200 false) ∧ (150 : Int) ≤ 250 :=
  ⟨by decide,
   C2_min_le_max_when_repair_fires {} "around 200" (.one 200 false) (by decide)
     (by decide) (by decide) 150 250 (by decide) (by decide)⟩

/-- Term `fixGuests` rewrites only the guest field. -/
theorem fixGuests_prices (p : SearchParams) (t : String) :
    (fixGuests p t).min_price = p.min_price ∧
    (fixGuests p t).max_price = p.max_price := by
  cases hg : p.guests with
  | none => simp [fixGuests, hg]
  | some g =>
    simp only [fixGuests, hg]
    split_ifs <;> simp

/-- With no budget-pattern match, the regex extractor leaves both prices
unset. -/
theorem extract_prices_none (t : String) (n : Now)
    (hb : budgetCascadeR t = none) :
    (extract_search_params_regex t n).min_price = none ∧
    (extract_search_params_regex t n).max_price = none := by
  cases hd : extract_dates_from_text t n with
  | none => simp [extract_search_params_regex, hd, hb, applyBudget]
  | some pr =>
    obtain ⟨x, y⟩ := pr
    simp [extract_search_params_regex, hd, hb, applyBudget]

/-- C4 counterexample: "about 200" matches no extraction or repair
pattern (only "around" is recognized), so the pipeline yields no prices
at all instead of the claimed 150/250 band. -/
theorem C4_counterexample :
    (validate_and_fix_params
      (extract_search_params_regex "about 200" ⟨⟨2026, 10, 12⟩, true⟩)
      "about 200").min_price = none ∧
    (validate_and_fix_params
      (extract_search_params_regex "about 200" ⟨⟨2026, 10, 12⟩, true⟩)
      "about 200").max_price = none := by
  decide

/-- C4 (amended): when extraction found no price and the validator's
repair cascade resolves to a single non-maximum number `N` (the
`around\s+\$?(\d+)` pattern, which requires `20 ≤ N ≤ 1000`; "about" is
not recognized), the validated query carries the symmetric band
`min_price = max(20, N - 50)`, `max_price = N + 50`. -/
theorem C4_around_band (t : String) (n : Now) (N : Nat)
    (hb : budgetCascadeR t = none)
    (hc : priceFixCascade t = some (.one N false)) :
    (validate_and_fix_params (extract_search_params_regex t n) t).min_price =
      some (max 20 ((N : Int) - 50)) ∧
    (validate_and_fix_params (extract_search_params_regex t n) t).max_price =
      some ((N : Int) + 50) := by
  have ht : t ≠ "" := by
    intro he
    rw [he] at hc
    have hemp : priceFixCascade "" = none := by decide
    rw [hemp] at hc
    cases hc
  obtain ⟨hpn, hpx⟩ := extract_prices_none t n hb
  obtain ⟨hN1, hN2⟩ := (priceFixCascade_sound t _ hc).2 N false rfl
  have hfp := fixGuests_prices (extract_search_params_regex t n) t
  have hs : shouldFixPrice (fixGuests (extract_search_params_regex t n) t) = true := by
    unfold shouldFixPrice
    rw [hfp.1, hfp.2, hpn, hpx]
    rfl
  have hval : validate_and_fix_params (extract_search_params_regex t n) t =
      capsDefaults (applyFix (.one N false)
        (fixGuests (extract_search_params_regex t n) t)) := by
    simp only [validate_and_fix_params, hs, hc]
    rw [if_pos ht]
    simp
  rw [hval]
  simp only [applyFix, capsDefaults]
  constructor <;> (split_ifs <;> first | rfl | (simp; omega))

/-- C4 witness: "around 200" yields the 150/250 band. -/
theorem C4_witness :
    (validate_and_fix_params
      (extract_search_params_regex "around 200" ⟨⟨2026, 10, 12⟩, true⟩)
      "around 200").min_price = some 150 ∧
    (validate_and_fix_params
      (extract_search_params_regex "around 200" ⟨⟨2026, 10, 12⟩, true⟩)
      "around 200").max_price = some 250 := by
  have h := C4_around_band "around 200" ⟨⟨2026, 10, 12⟩, true⟩ 200
    (by decide) (by decide)
  simpa using h

/-- C7 counterexample: the deterministic pass produces `max_price = 0`
(from "300 tenge" via floor division), which is falsy, so a fallback
`max_price` overwrites a value the deterministic pass produced. -/
theorem C7_counterexample :
    (extract_search_params_regex
      "accommodation 300 tenge pls pls pls pls pls pls pls"
      ⟨⟨2026, 10, 12⟩, true⟩).max_price = some 0 ∧
    (extract_search_params
      "accommodation 300 tenge pls pls pls pls pls pls pls"
      ⟨⟨2026, 10, 12⟩, true⟩ { max_price := some 70 }).max_price = some 70 := by
  decide

/-- C7 (amended): a fallback field is adopted only where the
deterministic field is falsy (`None`, `0`, or empty): every truthy
deterministic value is kept, and `property_type` / `amenities` are never
merged at all. -/
theorem C7_merge_truthy_precedence (t : String) (n : Now) (llm : SearchParams) :
    (tStr (extract_search_params_regex t n).location = true →
      (extract_search_params t n llm).location =
        (extract_search_params_regex t n).location) ∧
    (tStr (extract_search_params_regex t n).checkin = true →
      (extract_search_params t n llm).checkin =
        (extract_search_params_regex t n).checkin) ∧
    (tStr (extract_search_params_regex t n).checkout = true →
      (extract_search_params t n llm).checkout =
        (extract_search_params_regex t n).checkout) ∧
    (tInt (extract_search_params_regex t n).guests = true →
      (extract_search_params t n llm).guests =
        (extract_search_params_regex t n).guests) ∧
    (tInt (extract_search_params_regex t n).min_price = true →
      (extract_search_params t n llm).min_price =
        (extract_search_params_regex t n).min_price) ∧
    (tInt (extract_search_params_regex t n).max_price = true →
      (extract_search_params t n llm).max_price =
        (extract_search_params_regex t n).max_price) ∧
    (extract_search_params t n llm).property_type =
      (extract_search_params_regex t n).property_type ∧
    (extract_search_params t n llm).amenities =
      (extract_search_params_regex t n).amenities := by
  unfold extract_search_params
  generalize extract_search_params_regex t n = d
  by_cases hn : (!tStr d.location && decide (t.length > 50) &&
      (["accommodation", "travel", "trip", "visit", "booking", "stay"].any
        fun kw => pyIn kw (pyLower t))) = true
  · have hl : tStr d.location = false := by
      have h1 : (!tStr d.location) = true := by
        simp only [Bool.and_eq_true] at hn
        exact hn.1.1
      simpa using h1
    simp only [hn, if_true]
    refine ⟨?_, ?_, ?_, ?_, ?_, ?_, ?_, ?_⟩
    · intro hcon
      rw [hcon] at hl
      cases hl
    · intro h
      simp only [apply_ite SearchParams.checkin, ite_self, h, Bool.not_true,
        Bool.and_false, Bool.false_eq_true, if_false]
    · intro h
      simp only [apply_ite SearchParams.checkout, ite_self, h, Bool.not_true,
        Bool.and_false, Bool.false_eq_true, if_false]
    · intro h
      simp only [apply_ite SearchParams.guests, ite_self, h, Bool.not_true,
        Bool.and_false, Bool.false_eq_true, if_false]
    · intro h
      simp only [apply_ite SearchParams.min_price, ite_self, h, Bool.not_true,
        Bool.and_false, Bool.false_eq_true, if_false]
    · intro h
      simp only [apply_ite SearchParams.max_price, ite_self, h, Bool.not_true,
        Bool.and_false, Bool.false_eq_true, if_false]
    · simp only [apply_ite SearchParams.property_type, ite_self]
    · simp only [apply_ite SearchParams.amenities, ite_self]
  · simp only [Bool.not_eq_true] at hn
    simp only [hn, Bool.false_eq_true, if_false]
    simp

/-- C7 witness: a truthy deterministic `max_price` survives the merge. -/
theorem C7_witness :
    tInt (extract_search_params_regex "Villa in Paris with pool under $200"
      ⟨⟨2026, 10, 12⟩, true⟩).max_price = true ∧
    (extract_search_params "Villa in Paris with pool under $200"
        ⟨⟨2026, 10, 12⟩, true⟩ { max_price := some 70 }).max_price =
      (extract_search_params_regex "Villa in Paris with pool under $200"
        ⟨⟨2026, 10, 12⟩, true⟩).max_price :=
  ⟨by decide,
   (C7_merge_truthy_precedence "Villa in Paris with pool under $200"
      ⟨⟨2026, 10, 12⟩, true⟩ { max_price := some 70 }).2.2.2.2.2.1 (by decide)⟩

/-- C3 counterexample: with only a location set and an empty (short)
history, a message with no trigger content ("hi") still triggers a
search, because the location was never mentioned by the user before
(rule 10 of `should_trigger_search`). -/
theorem C3_counterexample :
    should_trigger_search "hi" { location := some "Almaty" } [] = true := by
  decide

/-- C3 (amended): with only a location set (all other fields falsy),
`should_trigger_search` returns `true` exactly when the stripped
lowercased message is an affirmative token, contains a search / price /
date / guest / area / property keyword, the raw message matches a detail
pattern, or the location does not occur in the previous user turns; it
returns `false` (deferring to confirmation / more-info) only when none of
these hold — in particular never merely because the query is sparse. -/
theorem C3_trigger_iff (msg : String) (p : SearchParams) (h : History)
    (hloc : tStr p.location = true) (hadd : hasAdditionalInfo p = false) :
    should_trigger_search msg p h = true ↔
      (affirmative_responses.contains (pyStrip (pyLower msg)) = true ∨
       containsAnyOf (pyStrip (pyLower msg)) explicit_search_triggers = true ∨
       containsAnyOf (pyStrip (pyLower msg)) price_indicators = true ∨
       containsAnyOf (pyStrip (pyLower msg)) date_indicators = true ∨
       containsAnyOf (pyStrip (pyLower msg)) guest_indicators = true ∨
       containsAnyOf (pyStrip (pyLower msg)) area_specs = true ∨
       containsAnyOf (pyStrip (pyLower msg)) trigger_property_types = true ∨
       (detailPatterns.any fun re => (reSearch re msg).isSome) = true ∨
       pyIn (pyLower (p.location.getD "")) (pyLower (previousUserText h)) = false) := by
  unfold should_trigger_search
  rw [hloc]
  simp only [Bool.not_true, Bool.false_eq_true, if_false, hadd, hloc,
    Bool.false_and, Bool.true_and]
  split_ifs with h1 h2 h3 h4 h5 h6 h7 h8 h9 <;> simp_all

/-- C3 witness: only location, no trigger content, location already
mentioned by the user — no search is triggered. -/
theorem C3_witness :
    should_trigger_search "hmm" { location := some "Almaty" }
      [("user", "I like Almaty a lot")] = false := by
  have h := C3_trigger_iff "hmm" { location := some "Almaty" }
    [("user", "I like Almaty a lot")] (by decide) (by decide)
  cases hb : should_trigger_search "hmm" { location := some "Almaty" }
    [("user", "I like Almaty a lot")] with
  | false => rfl
  | true => exact absurd (h.mp hb) (by decide)

/-- The trailing defaults always leave a guest count in `[1,16]`. -/
theorem capsDefaults_guests_bounds (q : SearchParams) :
    ∃ g : Int, (capsDefaults q).guests = some g ∧ 1 ≤ g ∧ g ≤ 16 := by
  unfold capsDefaults
  cases hq : q.guests with
  | none =>
    simp only [hq]
    refine ⟨_, rfl, ?_, ?_⟩ <;> split_ifs <;> omega
  | some g =>
    simp only [hq]
    refine ⟨_, rfl, ?_, ?_⟩ <;> split_ifs <;> omega

/-- The guest value of the defaults depends only on the incoming guest
field. -/
theorem capsDefaults_guests_congr (q r : SearchParams)
    (h : q.guests = r.guests) :
    (capsDefaults q).guests = (capsDefaults r).guests := by
  simp only [capsDefaults, h]

/-- The guest field survives the price stage of the validator. -/
theorem validate_guests_via_caps (p : SearchParams) (t : String) :
    (validate_and_fix_params p t).guests =
      (capsDefaults (fixGuests p t)).guests := by
  by_cases ht : t ≠ ""
  · by_cases hs : shouldFixPrice (fixGuests p t) = true
    · cases hc : priceFixCascade t with
      | none =>
        simp only [validate_and_fix_params, hs, hc]
        rw [if_pos ht]
        simp
      | some k =>
        simp only [validate_and_fix_params, hs, hc]
        rw [if_pos ht]
        simp only [if_true, ite_true]
        exact capsDefaults_guests_congr _ _ (applyFix_guests k _)
    · simp only [validate_and_fix_params]
      rw [if_pos ht, if_neg hs]
  · simp only [validate_and_fix_params]
    rw [if_neg ht]

/-- C5: the validated guest count always lies in `[1,16]`; a count above
16 is replaced by the re-derivation cascade's value (itself in `[1,16]`)
or the default 2, and the final clamp never alters that replacement. -/
theorem C5_guests_clamped (p : SearchParams) (t : String) :
    (∃ g : Int, (validate_and_fix_params p t).guests = some g ∧ 1 ≤ g ∧ g ≤ 16) ∧
    (∀ g0 : Int, p.guests = some g0 → g0 > 16 →
      (validate_and_fix_params p t).guests =
        some (((rederiveGuests t).map Int.ofNat).getD 2)) := by
  constructor
  · rw [validate_guests_via_caps]
    exact capsDefaults_guests_bounds _
  · intro g0 hp0 hgt
    rw [validate_guests_via_caps]
    have hfix : (fixGuests p t).guests =
        some (((rederiveGuests t).map Int.ofNat).getD 2) := by
      simp only [fixGuests, hp0]
      rw [if_pos hgt]
    have hv : 1 ≤ (((rederiveGuests t).map Int.ofNat).getD 2) ∧
        (((rederiveGuests t).map Int.ofNat).getD 2) ≤ 16 := by
      cases hr : rederiveGuests t with
      | none => simp
      | some gg =>
        have hb := rederiveGuests_sound t gg hr
        simp only [Option.map_some', Option.getD_some, Int.ofNat_eq_coe]
        omega
    obtain ⟨hv1, hv2⟩ := hv
    simp only [capsDefaults, hfix]
    split_ifs <;> first | rfl | (exfalso; omega)

/-- C5 witness: an extracted count of 250 is re-derived from the text. -/
theorem C5_witness :
    (validate_and_fix_params { guests := some 250 } "for 30 people, 4 of us").guests =
      some (((rederiveGuests "for 30 people, 4 of us").map Int.ofNat).getD 2) ∧
    rederiveGuests "for 30 people, 4 of us" = some 4 :=
  ⟨(C5_guests_clamped { guests := some 250 } "for 30 people, 4 of us").2 250 rfl
    (by decide), by decide⟩

theorem daysInMonth_le31 (y m : Nat) : daysInMonth y m ≤ 31 := by
  unfold daysInMonth
  split_ifs <;> omega

theorem daysInMonth_pos (y m : Nat) : 1 ≤ daysInMonth y m := by
  unfold daysInMonth
  split_ifs <;> omega

theorem nextDay_valid (d : Date) (h : validDate d = true) :
    validDate (nextDay d) = true := by
  obtain ⟨y, m, dd⟩ := d
  simp only [validDate, decide_eq_true_eq] at h
  have hp1 := daysInMonth_pos y (m + 1)
  have hp2 := daysInMonth_pos (y + 1) 1
  simp only [nextDay, validDate, decide_eq_true_eq]
  split_ifs <;> simp_all <;> omega

theorem dkey_lt_nextDay (d : Date) (h : validDate d = true) :
    dkey d < dkey (nextDay d) := by
  obtain ⟨y, m, dd⟩ := d
  simp only [validDate, decide_eq_true_eq] at h
  have h31 := daysInMonth_le31 y m
  simp only [nextDay, dkey]
  split_ifs <;> simp_all <;> omega

theorem addDays3_lt (d : Date) (h : validDate d = true) :
    dateLt d (addDays d 3) = true := by
  have h1 := nextDay_valid d h
  have h2 := nextDay_valid _ h1
  have l1 := dkey_lt_nextDay d h
  have l2 := dkey_lt_nextDay _ h1
  have l3 := dkey_lt_nextDay _ h2
  show decide (dkey d < dkey (addDays d 3)) = true
  have he : addDays d 3 = nextDay (nextDay (nextDay d)) := rfl
  rw [he]
  simp only [decide_eq_true_eq]
  omega

/-- C6 counterexample: with today = Dec 31 and input "12/30 - 12/28",
the +3-day forcing pushes the checkout into January of the next year, and
the year roll then produces a returned checkout strictly BEFORE the
returned checkin. -/
theorem C6_counterexample :
    extract_dates_from_text "12/30 - 12/28" ⟨⟨2026, 12, 31⟩, true⟩ =
      some ("2027-12-30", "2027-01-02") ∧
    dateLt ⟨2027, 1, 2⟩ ⟨2027, 12, 30⟩ = true := by
  decide

/-- C6 (amended): whenever `extract_dates_from_text` returns a pair, the
checkout was first forced to checkin + 3 days if not strictly later, and
then: when the past-date roll does not fire the returned checkout is
strictly after the returned checkin, while when it fires (checkin before
now and its month/day lexicographically below today's) both returned
dates are merely the year-replaced images — which, as the counterexample
shows, can invert the order when the forced checkout crossed a year
boundary. -/
theorem C6_date_fix_shape (t : String) (n : Now) (ci co ci2 co2 : Date)
    (hp : parseDates n.date.year t = (some ci, some co))
    (hf : fixDatesD n ci co = some (ci2, co2)) :
    extract_dates_from_text t n = some (fmtDate ci2, fmtDate co2) ∧
    (¬ (ciLtNow ci n = true ∧ rollCond ci n = true) →
      ci2 = ci ∧ co2 = forcedCheckout ci co ∧ dateLt ci2 co2 = true) ∧
    ((ciLtNow ci n = true ∧ rollCond ci n = true) →
      replaceYear ci (n.date.year + 1) = some ci2 ∧
      replaceYear (forcedCheckout ci co) (n.date.year + 1) = some co2) := by
  have hfirst : extract_dates_from_text t n = some (fmtDate ci2, fmtDate co2) := by
    unfold extract_dates_from_text
    rw [hp]
    simp only [hf]
  unfold fixDatesD at hf
  by_cases hv : validDate ci = true ∧ validDate co = true
  · rw [if_pos hv] at hf
    obtain ⟨hv1, hv2⟩ := hv
    by_cases hroll : ciLtNow ci n = true ∧ rollCond ci n = true
    · rw [if_pos hroll] at hf
      refine ⟨hfirst, fun hnr => absurd hroll hnr, fun _ => ?_⟩
      revert hf
      cases hy1 : replaceYear ci (n.date.year + 1) with
      | none => intro hf; cases hf
      | some a =>
        cases hy2 : replaceYear (forcedCheckout ci co) (n.date.year + 1) with
        | none => intro hf; cases hf
        | some b =>
          intro hf
          simp only [Option.some.injEq, Prod.mk.injEq] at hf
          rw [← hf.1, ← hf.2]
          exact ⟨rfl, rfl⟩
    · rw [if_neg hroll] at hf
      simp only [Option.some.injEq, Prod.mk.injEq] at hf
      obtain ⟨he1, he2⟩ := hf
      refine ⟨hfirst, fun _ => ⟨he1.symm, he2.symm, ?_⟩,
        fun hr2 => absurd hr2 hroll⟩
      rw [← he1, ← he2]
      unfold forcedCheckout
      by_cases hle : dateLe co ci = true
      · rw [if_pos hle]
        exact addDays3_lt ci hv1
      · rw [if_neg hle]
        simp only [dateLe, decide_eq_true_eq, not_le] at hle
        simp only [dateLt, decide_eq_true_eq]
        omega
  · rw [if_neg hv] at hf
    cases hf

/-- C6 witness: "6/15 - 6/20" in October resolves, rolls forward one
year, and the amended shape applies. -/
theorem C6_witness :
    extract_dates_from_text "6/15 - 6/20" ⟨⟨2026, 10, 12⟩, true⟩ =
      some (fmtDate ⟨2027, 6, 15⟩, fmtDate ⟨2027, 6, 20⟩) :=
  (C6_date_fix_shape "6/15 - 6/20" ⟨⟨2026, 10, 12⟩, true⟩ ⟨2026, 6, 15⟩
    ⟨2026, 6, 20⟩ ⟨2027, 6, 15⟩ ⟨2027, 6, 20⟩ (by decide) (by decide)).1

/-! Supporting lemmas for the idempotence analysis of the validator. -/

theorem capsDefaults_location (q : SearchParams) :
    (capsDefaults q).location = q.location := rfl

theorem capsDefaults_checkin (q : SearchParams) :
    (capsDefaults q).checkin = q.checkin := rfl

theorem capsDefaults_checkout (q : SearchParams) :
    (capsDefaults q).checkout = q.checkout := rfl

theorem capsDefaults_property (q : SearchParams) :
    (capsDefaults q).property_type = q.property_type := rfl

theorem capsDefaults_amenities (q : SearchParams) :
    (capsDefaults q).amenities = q.amenities := rfl

theorem capsDefaults_min_congr (q r : SearchParams)
    (h : q.min_price = r.min_price) :
    (capsDefaults q).min_price = (capsDefaults r).min_price := by
  simp only [capsDefaults, h]

theorem capsDefaults_max_congr (q r : SearchParams)
    (h : q.max_price = r.max_price) :
    (capsDefaults q).max_price = (capsDefaults r).max_price := by
  simp only [capsDefaults, h]

theorem capsDefaults_max_le (q : SearchParams) (v : Int)
    (h : (capsDefaults q).max_price = some v) : v ≤ 2000 := by
  unfold capsDefaults at h
  cases hmx : q.max_price with
  | none => simp [hmx] at h
  | some m =>
    simp only [hmx] at h
    split_ifs at h <;> simp only [Option.some.injEq] at h <;> omega

theorem capsDefaults_min_nonneg (q : SearchParams) (v : Int)
    (h : (capsDefaults q).min_price = some v) : 0 ≤ v ∨ v = q.min_price.getD 0 := by
  unfold capsDefaults at h
  cases hmn : q.min_price with
  | none => simp [hmn] at h
  | some m =>
    simp only [hmn] at h
    split_ifs at h <;> simp only [Option.some.injEq] at h <;> simp [hmn] <;> omega

/-- A guest count already in `[1,16]` is a fixed point of the defaults. -/
theorem capsDefaults_guests_stable (q : SearchParams) (g : Int)
    (hq : q.guests = some g) (h1 : 1 ≤ g) (h2 : g ≤ 16) :
    (capsDefaults q).guests = some g := by
  unfold capsDefaults
  simp only [hq]
  split_ifs <;> first | rfl | (exfalso; omega)

theorem applyFix_min_const (k : FixKind) (q r : SearchParams) :
    (applyFix k q).min_price = (applyFix k r).min_price := by
  cases k with
  | two n1 n2 => rfl
  | one pr b => cases b <;> rfl

theorem applyFix_max_const (k : FixKind) (q r : SearchParams) :
    (applyFix k q).max_price = (applyFix k r).max_price := by
  cases k with
  | two n1 n2 => rfl
  | one pr b => cases b <;> rfl

theorem applyFix_location (k : FixKind) (q : SearchParams) :
    (applyFix k q).location = q.location := by
  cases k with
  | two n1 n2 => rfl
  | one pr b => cases b <;> rfl

theorem applyFix_checkin (k : FixKind) (q : SearchParams) :
    (applyFix k q).checkin = q.checkin := by
  cases k with
  | two n1 n2 => rfl
  | one pr b => cases b <;> rfl

theorem applyFix_checkout (k : FixKind) (q : SearchParams) :
    (applyFix k q).checkout = q.checkout := by
  cases k with
  | two n1 n2 => rfl
  | one pr b => cases b <;> rfl

theorem applyFix_property (k : FixKind) (q : SearchParams) :
    (applyFix k q).property_type = q.property_type := by
  cases k with
  | two n1 n2 => rfl
  | one pr b => cases b <;> rfl

theorem applyFix_amenities (k : FixKind) (q : SearchParams) :
    (applyFix k q).amenities = q.amenities := by
  cases k with
  | two n1 n2 => rfl
  | one pr b => cases b <;> rfl

/-- Applying the same repair twice is the same as once. -/
theorem applyFix_applyFix (k : FixKind) (q : SearchParams) :
    applyFix k (applyFix k q) = applyFix k q := by
  cases k with
  | two n1 n2 => rfl
  | one pr b => cases b <;> rfl

theorem capsDefaults_min_idem (q : SearchParams) :
    (capsDefaults (capsDefaults q)).min_price = (capsDefaults q).min_price := by
  unfold capsDefaults
  cases hmn : q.min_price with
  | none => simp [hmn]
  | some m =>
    simp only [hmn]
    split_ifs <;> simp_all

theorem capsDefaults_max_idem (q : SearchParams) :
    (capsDefaults (capsDefaults q)).max_price = (capsDefaults q).max_price := by
  unfold capsDefaults
  cases hmx : q.max_price with
  | none => simp [hmx]
  | some m =>
    simp only [hmx]
    split_ifs <;> simp_all

/-- The trailing defaults are idempotent. -/
theorem capsDefaults_idem (q : SearchParams) :
    capsDefaults (capsDefaults q) = capsDefaults q := by
  obtain ⟨g2, hg2, hb1, hb2⟩ := capsDefaults_guests_bounds q
  ext1
  · rw [capsDefaults_location, capsDefaults_location]
  · rw [capsDefaults_checkin, capsDefaults_checkin]
  · rw [capsDefaults_checkout, capsDefaults_checkout]
  · rw [capsDefaults_guests_stable _ g2 hg2 hb1 hb2, hg2]
  · exact capsDefaults_min_idem q
  · exact capsDefaults_max_idem q
  · rw [capsDefaults_property, capsDefaults_property]
  · rw [capsDefaults_amenities, capsDefaults_amenities]

/-- After the defaults the guest fix never fires again. -/
theorem fixGuests_capsD (q : SearchParams) (t : String) :
    fixGuests (capsDefaults q) t = capsDefaults q := by
  obtain ⟨g, hg, h1, h2⟩ := capsDefaults_guests_bounds q
  simp only [fixGuests, hg]
  rw [if_neg (by omega)]

/-- The guest fix does not affect price suspicion. -/
theorem shouldFixPrice_fixGuests (p : SearchParams) (t : String) :
    shouldFixPrice (fixGuests p t) = shouldFixPrice p := by
  obtain ⟨hmn, hmx⟩ := fixGuests_prices p t
  unfold shouldFixPrice
  rw [hmn, hmx]

/-- When the prices were not suspect and `min_price` is not negative, the
defaults leave both prices unchanged, so they stay unsuspect. -/
theorem shouldFixPrice_capsD_false (q : SearchParams)
    (hq : shouldFixPrice q = false)
    (h0 : ∀ v, q.min_price = some v → 0 ≤ v) :
    shouldFixPrice (capsDefaults q) = false := by
  have hmx : (capsDefaults q).max_price = q.max_price := by
    unfold shouldFixPrice at hq
    simp only [Bool.or_eq_false_iff] at hq
    obtain ⟨⟨hq1, -⟩, -⟩ := hq
    unfold capsDefaults
    cases hm : q.max_price with
    | none => simp
    | some m =>
      simp only [hm] at hq1 ⊢
      rw [if_neg ?_]
      simp only [Bool.and_eq_false_iff] at hq1
      rcases hq1 with hq1 | hq1
      · simp only [ne_eq, decide_eq_false_iff_not, Decidable.not_not] at hq1
        omega
      · simp only [decide_eq_false_iff_not, not_lt] at hq1
        omega
  have hmn : (capsDefaults q).min_price = q.min_price := by
    unfold capsDefaults
    cases hm : q.min_price with
    | none => simp
    | some m =>
      have := h0 m hm
      simp only [hm]
      rw [if_neg (by omega)]
  unfold shouldFixPrice at hq ⊢
  rw [hmn, hmx]
  exact hq

/-- Re-running defaults before the same repair changes nothing. -/
theorem capsDefaults_applyFix (k : FixKind) (q : SearchParams) :
    capsDefaults (applyFix k (capsDefaults q)) = capsDefaults (applyFix k q) := by
  obtain ⟨g2, hg2, hb1, hb2⟩ := capsDefaults_guests_bounds q
  ext1
  · rw [capsDefaults_location, capsDefaults_location, applyFix_location,
      applyFix_location, capsDefaults_location]
  · rw [capsDefaults_checkin, capsDefaults_checkin, applyFix_checkin,
      applyFix_checkin, capsDefaults_checkin]
  · rw [capsDefaults_checkout, capsDefaults_checkout, applyFix_checkout,
      applyFix_checkout, capsDefaults_checkout]
  · have hL : (applyFix k (capsDefaults q)).guests = some g2 := by
      rw [applyFix_guests, hg2]
    rw [capsDefaults_guests_stable _ g2 hL hb1 hb2,
      capsDefaults_guests_congr (applyFix k q) q (applyFix_guests k q), hg2]
  · exact capsDefaults_min_congr _ _ (applyFix_min_const k _ _)
  · exact capsDefaults_max_congr _ _ (applyFix_max_const k _ _)
  · rw [capsDefaults_property, capsDefaults_property, applyFix_property,
      applyFix_property, capsDefaults_property]
  · rw [capsDefaults_amenities, capsDefaults_amenities, applyFix_amenities,
      applyFix_amenities, capsDefaults_amenities]

/-- C8 counterexample: with a negative extracted `min_price` the
validator is not idempotent — the first pass snaps `min_price` to 20
without repairing the range, which makes the prices suspect on the second
pass, and the repair then rewrites them. -/
theorem C8_counterexample :
    validate_and_fix_params
      (validate_and_fix_params
        { min_price := some (-3), max_price := some 10 } "around 100")
      "around 100" ≠
    validate_and_fix_params
      { min_price := some (-3), max_price := some 10 } "around 100" := by
  decide

/-- C8 (amended): the validator is idempotent for every query whose
`min_price`, when set, is non-negative (every value the extractor itself
produces); a negative `min_price` input breaks idempotence as the
counterexample shows. -/
theorem C8_idempotent_nonneg_min (p : SearchParams) (t : String)
    (h0 : ∀ v, p.min_price = some v → 0 ≤ v) :
    validate_and_fix_params (validate_and_fix_params p t) t =
      validate_and_fix_params p t := by
  by_cases ht : t ≠ ""
  · by_cases hs : shouldFixPrice (fixGuests p t) = true
    · cases hc : priceFixCascade t with
      | some k =>
        have hS1 : validate_and_fix_params p t =
            capsDefaults (applyFix k (fixGuests p t)) := by
          simp only [validate_and_fix_params, hs, hc]
          rw [if_pos ht]
          simp
        rw [hS1]
        simp only [validate_and_fix_params, hc]
        rw [if_pos ht, fixGuests_capsD]
        by_cases hs2 : shouldFixPrice
            (capsDefaults (applyFix k (fixGuests p t))) = true
        · rw [if_pos hs2]
          rw [capsDefaults_applyFix, applyFix_applyFix]
        · rw [if_neg hs2]
          exact capsDefaults_idem _
      | none =>
        have hS1 : validate_and_fix_params p t =
            capsDefaults (fixGuests p t) := by
          simp only [validate_and_fix_params, hs, hc]
          rw [if_pos ht]
          simp
        rw [hS1]
        simp only [validate_and_fix_params, hc]
        rw [if_pos ht, fixGuests_capsD]
        by_cases hs2 : shouldFixPrice (capsDefaults (fixGuests p t)) = true
        · rw [if_pos hs2]
          exact capsDefaults_idem _
        · rw [if_neg hs2]
          exact capsDefaults_idem _
    · have hS1 : validate_and_fix_params p t =
          capsDefaults (fixGuests p t) := by
        simp only [validate_and_fix_params]
        rw [if_pos ht, if_neg hs]
      rw [hS1]
      simp only [validate_and_fix_params]
      rw [if_pos ht, fixGuests_capsD]
      have hq : shouldFixPrice (fixGuests p t) = false := by
        cases hb : shouldFixPrice (fixGuests p t) with
        | false => rfl
        | true => exact absurd hb hs
      have h0' : ∀ v, (fixGuests p t).min_price = some v → 0 ≤ v := by
        intro v hv
        rw [(fixGuests_prices p t).1] at hv
        exact h0 v hv
      have hs2 : shouldFixPrice (capsDefaults (fixGuests p t)) = false :=
        shouldFixPrice_capsD_false _ hq h0'
      rw [if_neg (by rw [hs2]; exact Bool.false_ne_true)]
      exact capsDefaults_idem _
  · simp only [validate_and_fix_params]
    rw [if_neg ht, if_neg ht, fixGuests_capsD]
    exact capsDefaults_idem _

/-- C8 witness: a well-formed query is a fixed point after one pass. -/
theorem C8_witness :
    validate_and_fix_params
      (validate_and_fix_params { min_price := some 5 } "around 100")
      "around 100" =
    validate_and_fix_params { min_price := some 5 } "around 100" :=
  C8_idempotent_nonneg_min { min_price := some 5 } "around 100"
    (by intro v hv; cases hv; omega)

end Confind
